import Mathlib

/-!
# Verification of the domain-checker classification pipeline

A shallow embedding, in Lean 4, of the central functions of
`domain_checker.py`: the text classifiers (property count, hacked-site
detection, third-party-listing detection, vacation-rental business-model
classification, industry / company-size / language / decision-maker /
upgrade-need / property-type / geographic-scope scoring), the connectivity
monitor, the result sink and the batch orchestrator.

Conventions of the embedding:
* Python strings are modelled as `List Char`; `in`, `str.count`, `str.split`,
  `str.strip` and `str.lower` are modelled by executable functions below with
  Python's semantics (`count` counts non-overlapping occurrences from the
  left; `split()` splits on runs of whitespace).  ASCII lower-casing is used,
  which agrees with Python on the ASCII inputs of all lexicons.
* The regular expressions used by the code are few and fixed; each one is
  implemented as a dedicated scanner with Python's leftmost-match,
  greedy-with-backtracking semantics on the relevant alternations.
* Python float scoring is modelled exactly (`PyFloat`, an integer fraction);
  `round` is modelled as round-half-to-even (`PyFloat.roundHE`), as in
  Python 3.
* `BeautifulSoup` queries are modelled by a `Soup` structure holding the
  element counts and attribute values that the code inspects.
* A Python function body that can raise is modelled in `Except`; a
  `try/except` wrapper maps `Except.error` to the handler's default value.
-/

namespace DomainChecker

abbrev Chars := List Char

/-- Python `str.isspace` on the ASCII whitespace used by the inputs. -/
def isSpaceChar (c : Char) : Bool :=
  c = ' ' || c = '\t' || c = '\n' || c = '\r' || c = '\x0b' || c = '\x0c'

/-- ASCII lower-casing of one character (Python `str.lower` on ASCII). -/
def lowerChar (c : Char) : Char :=
  if 'A' ≤ c ∧ c ≤ 'Z' then Char.ofNat (c.toNat + 32) else c

def lowerChars (s : Chars) : Chars := s.map lowerChar

/-- Python's `pat in s` substring test. -/
def containsSub (pat : Chars) : Chars → Bool
  | [] => pat.isEmpty
  | c :: rest => pat.isPrefixOf (c :: rest) || containsSub pat rest

/-- Python's `s.count(pat)`: non-overlapping occurrences, scanning from the
left; after a match the scan resumes past it (`skip` pending positions). -/
def countOccsAux (pat : Chars) : Chars → Nat → Nat
  | [], _ => 0
  | _ :: rest, Nat.succ k => countOccsAux pat rest k
  | c :: rest, 0 =>
      if pat ≠ [] ∧ pat.isPrefixOf (c :: rest) then
        1 + countOccsAux pat rest (pat.length - 1)
      else
        countOccsAux pat rest 0

def countOccs (pat s : Chars) : Nat := countOccsAux pat s 0

/-- Python `s.split()`: split on runs of whitespace, dropping empty parts. -/
def splitWsAux : Chars → Chars → List Chars
  | [], acc => if acc.isEmpty then [] else [acc.reverse]
  | c :: rest, acc =>
      if isSpaceChar c then
        if acc.isEmpty then splitWsAux rest []
        else acc.reverse :: splitWsAux rest []
      else
        splitWsAux rest (c :: acc)

def splitWs (s : Chars) : List Chars := splitWsAux s []

/-- Python `s.strip()` (whitespace on both ends). -/
def stripChars (s : Chars) : Chars :=
  (s.dropWhile (fun c => isSpaceChar c)).reverse.dropWhile (fun c => isSpaceChar c) |>.reverse

/-- String-level helpers; `str.data` gives the character list of a literal. -/
def pyIn (pat s : String) : Bool := containsSub pat.data s.data

/-- Number of occurrences of any keyword of a lexicon (sum of counts). -/
def sumCounts (text : Chars) (kws : List String) (w : Nat) : Nat :=
  kws.foldl (fun acc k => acc + countOccs k.data text * w) 0

/-! ## Exact model of Python float scoring

All float values appearing in the scoring code are small sums and products of
decimal constants; we model them exactly as fractions.  A `PyFloat` is an
unnormalised fraction with a positive denominator; comparisons, `min` and
Python's `round` (half-to-even) are integer computations, so they evaluate in
the kernel. -/

structure PyFloat where
  num : ℤ
  den : ℤ
  pos : 0 < den

namespace PyFloat

def ofInt (n : ℤ) : PyFloat := ⟨n, 1, one_pos⟩

def ofNat (n : ℕ) : PyFloat := ⟨n, 1, one_pos⟩

/-- The decimal literal `a.b` scaled: `tenths n` is `n / 10`. -/
def tenths (n : ℤ) : PyFloat := ⟨n, 10, by norm_num⟩

def add (a b : PyFloat) : PyFloat :=
  ⟨a.num * b.den + b.num * a.den, a.den * b.den, mul_pos a.pos b.pos⟩

def mul (a b : PyFloat) : PyFloat :=
  ⟨a.num * b.num, a.den * b.den, mul_pos a.pos b.pos⟩

def sub (a b : PyFloat) : PyFloat :=
  ⟨a.num * b.den - b.num * a.den, a.den * b.den, mul_pos a.pos b.pos⟩

def div (a b : PyFloat) : PyFloat :=
  if h : b.num ≤ 0 then ofInt 0   -- division only used with positive divisors
  else ⟨a.num * b.den, a.den * b.num, mul_pos a.pos (by omega)⟩

def leB (a b : PyFloat) : Bool := decide (a.num * b.den ≤ b.num * a.den)

def ltB (a b : PyFloat) : Bool := decide (a.num * b.den < b.num * a.den)

def fmin (a b : PyFloat) : PyFloat := if leB a b then a else b

def fmax (a b : PyFloat) : PyFloat := if leB a b then b else a

def toRat (a : PyFloat) : ℚ := (a.num : ℚ) / (a.den : ℚ)

/-- Python `round` on the exact value: round half to even. -/
def roundHE (a : PyFloat) : ℤ :=
  if 2 * Int.fmod a.num a.den < a.den then Int.fdiv a.num a.den
  else if a.den < 2 * Int.fmod a.num a.den then Int.fdiv a.num a.den + 1
  else if Int.fdiv a.num a.den % 2 = 0 then Int.fdiv a.num a.den
  else Int.fdiv a.num a.den + 1

theorem roundHE_nonneg {a : PyFloat} (h : 0 ≤ a.num) : 0 ≤ roundHE a := by
  have hf : 0 ≤ Int.fdiv a.num a.den := Int.fdiv_nonneg h (le_of_lt a.pos)
  unfold roundHE
  split_ifs <;> omega

theorem roundHE_le {a : PyFloat} {n : ℤ} (h : a.num ≤ n * a.den) :
    roundHE a ≤ n := by
  have hmod : a.den * Int.fdiv a.num a.den + Int.fmod a.num a.den = a.num :=
    Int.fdiv_add_fmod a.num a.den
  have hr0 : 0 ≤ Int.fmod a.num a.den := Int.fmod_nonneg' a.num a.pos
  have hrlt : Int.fmod a.num a.den < a.den := Int.fmod_lt_of_pos a.num a.pos
  have hpos := a.pos
  unfold roundHE
  split_ifs with h1 h2 h3 <;> nlinarith [hmod, hr0, hrlt, hpos, h]

theorem den_cast_pos (a : PyFloat) : (0:ℚ) < (a.den : ℚ) := by exact_mod_cast a.pos

/-- Bounds on the numerator are bounds on the value, and conversely. -/
theorem toRat_nonneg_iff {a : PyFloat} : 0 ≤ a.toRat ↔ 0 ≤ a.num := by
  unfold toRat
  rw [le_div_iff₀ a.den_cast_pos, zero_mul]
  exact ⟨fun h => by exact_mod_cast h, fun h => by exact_mod_cast h⟩

theorem toRat_le_iff {a : PyFloat} {n : ℤ} : a.toRat ≤ (n : ℚ) ↔ a.num ≤ n * a.den := by
  unfold toRat
  rw [div_le_iff₀ a.den_cast_pos]
  exact ⟨fun h => by exact_mod_cast h, fun h => by exact_mod_cast h⟩

theorem leB_iff {a b : PyFloat} : leB a b = true ↔ a.toRat ≤ b.toRat := by
  unfold leB toRat
  rw [div_le_div_iff₀ a.den_cast_pos b.den_cast_pos]
  constructor
  · intro h; exact_mod_cast of_decide_eq_true h
  · intro h; exact decide_eq_true (by exact_mod_cast h)

theorem toRat_add (a b : PyFloat) : (add a b).toRat = a.toRat + b.toRat := by
  unfold add toRat
  dsimp only
  have ha := a.den_cast_pos.ne'
  have hb := b.den_cast_pos.ne'
  push_cast
  field_simp

theorem toRat_sub (a b : PyFloat) : (sub a b).toRat = a.toRat - b.toRat := by
  unfold sub toRat
  dsimp only
  have ha := a.den_cast_pos.ne'
  have hb := b.den_cast_pos.ne'
  push_cast
  field_simp
  ring

theorem toRat_mul (a b : PyFloat) : (mul a b).toRat = a.toRat * b.toRat := by
  unfold mul toRat
  dsimp only
  push_cast
  ring

theorem toRat_ofInt (n : ℤ) : (ofInt n).toRat = (n : ℚ) := by
  unfold ofInt toRat; simp

theorem toRat_ofNat (n : ℕ) : (ofNat n).toRat = (n : ℚ) := by
  unfold ofNat toRat; simp

theorem toRat_tenths (n : ℤ) : (tenths n).toRat = (n : ℚ) / 10 := by
  unfold tenths toRat; norm_num

theorem fmin_le_left (a b : PyFloat) : (fmin a b).toRat ≤ a.toRat := by
  unfold fmin
  split_ifs with h
  · exact le_refl _
  · have := leB_iff (a := b) (b := a)
    rcases le_total b.toRat a.toRat with hle | hle
    · exact hle
    · have : leB a b = true := leB_iff.mpr hle
      simp [this] at h

theorem fmin_le_right (a b : PyFloat) : (fmin a b).toRat ≤ b.toRat := by
  unfold fmin
  split_ifs with h
  · exact leB_iff.mp h
  · exact le_refl _

theorem le_fmin {a b c : PyFloat} (ha : c.toRat ≤ a.toRat) (hb : c.toRat ≤ b.toRat) :
    c.toRat ≤ (fmin a b).toRat := by
  unfold fmin
  split_ifs <;> assumption

theorem fmax_le {a b : PyFloat} {q : ℚ} (ha : a.toRat ≤ q) (hb : b.toRat ≤ q) :
    (fmax a b).toRat ≤ q := by
  unfold fmax
  split_ifs <;> assumption

theorem le_fmax_left (a b : PyFloat) : a.toRat ≤ (fmax a b).toRat := by
  unfold fmax
  split_ifs with h
  · exact leB_iff.mp h
  · exact le_refl _

theorem le_fmax_right (a b : PyFloat) : b.toRat ≤ (fmax a b).toRat := by
  unfold fmax
  split_ifs with h
  · exact le_refl _
  · rcases le_total b.toRat a.toRat with hle | hle
    · exact hle
    · have : leB a b = true := leB_iff.mpr hle
      simp [this] at h

theorem roundHE_nonneg_val {a : PyFloat} (h : 0 ≤ a.toRat) : 0 ≤ roundHE a :=
  roundHE_nonneg (toRat_nonneg_iff.mp h)

theorem roundHE_le_val {a : PyFloat} {n : ℤ} (h : a.toRat ≤ (n : ℚ)) : roundHE a ≤ n :=
  roundHE_le (toRat_le_iff.mp h)

end PyFloat

/-! ## Scanners for the fixed regular expressions -/

def isDigitChar (c : Char) : Bool := '0' ≤ c ∧ c ≤ '9'

def isWordChar (c : Char) : Bool :=
  ('a' ≤ c ∧ c ≤ 'z') || ('A' ≤ c ∧ c ≤ 'Z') || isDigitChar c || c = '_'

/-- Greedy maximal run of digits (at least one); returns value and rest. -/
def takeDigits : Chars → Option (Chars × Chars)
  | [] => none
  | c :: rest =>
      if isDigitChar c then
        match takeDigits rest with
        | some (ds, r) => some (c :: ds, r)
        | none => some ([c], rest)
      else none

def digitsVal (ds : Chars) : Nat :=
  ds.foldl (fun acc c => acc * 10 + (c.toNat - '0'.toNat)) 0

/-- `\s*` (greedy; the tokens following it in all our patterns never start
with whitespace, so the greedy match is exact). -/
def skipSpaces0 (s : Chars) : Chars := s.dropWhile (fun c => isSpaceChar c)

/-- `\s+`: at least one whitespace character, then greedy. -/
def skipSpaces1 : Chars → Option Chars
  | [] => none
  | c :: rest => if isSpaceChar c then some (skipSpaces0 rest) else none

/-- Literal match, returning the remainder. -/
def litAt (lit : Chars) (s : Chars) : Option Chars :=
  if lit.isPrefixOf s then some (s.drop lit.length) else none

/-- First alternative (in order) whose literal matches at this position. -/
def altLitAt (alts : List Chars) (s : Chars) : Option Chars :=
  match alts with
  | [] => none
  | a :: rest =>
      match litAt a s with
      | some r => some r
      | none => altLitAt rest s

/-- Run a positional matcher at every position, left to right, restarting
after each match (Python `re.findall` non-overlapping scan).  Fuel is the
length of the text, which bounds the number of restarts. -/
def scanAll {α : Type} (try_ : Chars → Option (α × Chars)) : Nat → Chars → List α
  | 0, _ => []
  | _ + 1, [] => []
  | fuel + 1, c :: rest =>
      match try_ (c :: rest) with
      | some (a, remaining) => a :: scanAll try_ fuel remaining
      | none => scanAll try_ fuel rest

def findAll {α : Type} (try_ : Chars → Option (α × Chars)) (s : Chars) : List α :=
  scanAll try_ s.length s

/-- Does a positional Boolean matcher succeed at any position (Python
`re.search` as a Boolean)? -/
def searchB (try_ : Chars → Bool) : Chars → Bool
  | [] => try_ []
  | c :: rest => try_ (c :: rest) || searchB try_ rest

/-! ## Property-count extraction

Embeds `property_count_patterns` (source lines 672-691) and
`detect_property_count` (lines 759-804). -/

/-- Try one literal alternative after another, each with the same
continuation (regex alternation with backtracking). -/
def tryAltsThen {α : Type} (alts : List Chars) (k : Chars → Option α) (s : Chars) : Option α :=
  match alts with
  | [] => none
  | a :: rest =>
      match litAt a s with
      | some r =>
          match k r with
          | some v => some v
          | none => tryAltsThen rest k s
      | none => tryAltsThen rest k s

/-- `(\d+)\s*(?:w1|w2|...)`: maximal digit run, optional whitespace, one of
the literal alternatives.  Backtracking into the digit run cannot succeed
(the alternatives and whitespace start with non-digits), so the greedy scan
is exact. -/
def tryNumThenWord (alts : List String) (s : Chars) : Option (Nat × Chars) := do
  let (ds, r1) ← takeDigits s
  let r2 ← altLitAt (alts.map String.data) (skipSpaces0 r1)
  pure (digitsVal ds, r2)

/-- `(?:manage|managing|own|offer)\s*(\d+)` and `portfolio of\s*(\d+)`:
literal alternatives, optional whitespace, then a digit group. -/
def tryWordThenNum (alts : List String) (s : Chars) : Option (Nat × Chars) :=
  tryAltsThen (alts.map String.data)
    (fun r => do
      let (ds, r1) ← takeDigits (skipSpaces0 r)
      pure (digitsVal ds, r1)) s

/-- `(\d+)\s*vacation\s*(?:homes|properties|rentals)`. -/
def tryNumVacation (s : Chars) : Option (Nat × Chars) := do
  let (ds, r1) ← takeDigits s
  let r2 ← litAt "vacation".data (skipSpaces0 r1)
  let r3 ← altLitAt ["homes".data, "properties".data, "rentals".data] (skipSpaces0 r2)
  pure (digitsVal ds, r3)

/-- `(\d+)\s*(?:to|-)\s*(\d+)\s*(?:properties|homes|rentals)`. -/
def tryNumRange (s : Chars) : Option ((Nat × Nat) × Chars) := do
  let (d1, r1) ← takeDigits s
  let r2 ← altLitAt ["to".data, "-".data] (skipSpaces0 r1)
  let (d2, r3) ← takeDigits (skipSpaces0 r2)
  let r4 ← altLitAt ["properties".data, "homes".data, "rentals".data] (skipSpaces0 r3)
  pure ((digitsVal d1, digitsVal d2), r4)

/-- `between\s*(\d+)\s*and\s*(\d+)`. -/
def tryBetween (s : Chars) : Option ((Nat × Nat) × Chars) := do
  let r0 ← litAt "between".data s
  let (d1, r1) ← takeDigits (skipSpaces0 r0)
  let r2 ← litAt "and".data (skipSpaces0 r1)
  let (d2, r3) ← takeDigits (skipSpaces0 r2)
  pure ((digitsVal d1, digitsVal d2), r3)

structure PropertyCountResult where
  count : Option Nat
  confidence : Nat
  ptype : Option String     -- the result key 'type'
deriving Repr, DecidableEq

/-- The descriptive patterns (in source order) with their fixed estimates
(`estimates` dict, lines 790-793). -/
def descriptivePatterns : List (String × Nat) :=
  [("dozens of properties", 36), ("hundreds of properties", 200),
   ("thousands of properties", 2000), ("handful of properties", 3),
   ("few select properties", 5), ("multiple properties", 12),
   ("several properties", 8)]

/-- `detect_property_count` (lines 759-804): try exact-number patterns, then
ranges, then descriptive quantities, in the order of
`property_count_patterns`; the first exact match with a count in `[1,10000]`
wins; a range returns the floor average. -/
def detect_property_count (text : String) : PropertyCountResult :=
  let t := lowerChars text.data
  let inRange : Nat → Bool := fun n => decide (1 ≤ n ∧ n ≤ 10000)
  match (findAll (tryNumThenWord ["properties", "homes", "rentals", "units",
      "cabins", "cottages", "villas", "condos"]) t).find? inRange with
  | some n => ⟨some n, 90, some "exact"⟩
  | none =>
  match (findAll (tryWordThenNum ["manage", "managing", "own", "offer"]) t).find? inRange with
  | some n => ⟨some n, 90, some "exact"⟩
  | none =>
  match (findAll (tryWordThenNum ["portfolio of"]) t).find? inRange with
  | some n => ⟨some n, 90, some "exact"⟩
  | none =>
  match (findAll tryNumVacation t).find? inRange with
  | some n => ⟨some n, 90, some "exact"⟩
  | none =>
  match (findAll tryNumRange t).head? with
  | some (lo, hi) => ⟨some ((lo + hi) / 2), 80, some "range"⟩
  | none =>
  match (findAll tryBetween t).head? with
  | some (lo, hi) => ⟨some ((lo + hi) / 2), 80, some "range"⟩
  | none =>
  match descriptivePatterns.find? (fun p => containsSub p.1.data t) with
  | some p => ⟨some p.2, 60, some "estimate"⟩
  | none => ⟨none, 0, none⟩

/-- **C4** (counterexample): contrary to the claim, the input
"several vacation homes" matches none of the property-count patterns — the
descriptive pattern in the source is the literal phrase `several properties`,
not "several vacation homes" — so the extractor returns no count at all
rather than count 8 with type estimate. -/
theorem C4_counterexample_several_vacation_homes :
    detect_property_count "several vacation homes" = ⟨none, 0, none⟩ ∧
    (detect_property_count "several vacation homes").count ≠ some 8 := by decide

/-- **C4** (amended): the extractor on "we manage 12 properties" returns
count 12 with type exact; the estimate 8 of type estimate is produced by the
literal phrase "several properties"; the input "several vacation homes"
matches no pattern and yields no count. -/
theorem C4_property_count_amended :
    detect_property_count "we manage 12 properties" = ⟨some 12, 90, some "exact"⟩ ∧
    detect_property_count "several properties" = ⟨some 8, 60, some "estimate"⟩ ∧
    detect_property_count "several vacation homes" = ⟨none, 0, none⟩ := by decide

/-! ## Page and response model

`BeautifulSoup` and `requests.Response` observations used by the analyzers:
each field records the result of one of the fixed queries the code makes. -/

structure Iframe where
  src : String            -- iframe.get('src', '')
  style : Option String   -- iframe.get('style')
deriving Repr

structure Soup where
  -- analyze_marketplace_structure queries (lines 2159-2218)
  bookingForms : Nat := 0     -- form[class~book|reserv|avail]
  calendarElems : Nat := 0    -- class~calendar|datepicker|availability
  reviewElems : Nat := 0      -- class~review|rating|feedback
  galleryElems : Nat := 0     -- class~gallery|slideshow|carousel|photo
  amenityElems : Nat := 0     -- class~amenity|amenities|feature
  priceElems : Nat := 0       -- class~price|rate|cost|fee
  hostElems : Nat := 0        -- class~host|owner|manager
  similarElems : Nat := 0     -- class~similar|related|recommend
  mapElems : Nat := 0         -- iframe/div class~map|location
  -- detect_hacked_website queries (lines 1847-1877)
  hiddenElems : Nat := 0            -- div/span styled display:none|visibility:hidden
  scriptTexts : List String := []   -- script.string of each script tag
  iframes : List Iframe := []
  -- detect_website_language queries (lines 1914-1927)
  htmlLang : Option String := none        -- <html lang=...>
  metaLangContents : List String := []    -- content of meta http-equiv=content-language
  -- detect_website_upgrade_needs queries (lines 924-953)
  hasFormOrButton : Bool := false
  hasViewportMeta : Bool := false
  frameElems : Nat := 0
  tables : Nat := 0
  layoutTables : Nat := 0     -- tables with no <th>
  -- analyze_detailed_website_metrics queries (lines 3316-3347)
  totalLinks : Nat := 0
  internalLinks : Nat := 0
  images : Nat := 0
  forms : Nat := 0
  scripts : Nat := 0
  stylesheets : Nat := 0
  navItems : Nat := 0         -- <li> under nav/ul/ol
  divs : Nat := 0
  sections : Nat := 0
  articles : Nat := 0
  videos : Nat := 0
  interactiveElems : Nat := 0
  soupText : String := ""     -- soup.get_text()
  hrefs : List String := []   -- href attributes of <a> tags
deriving Repr

/-- A fetched HTTP response as the analyzers see it. -/
structure Resp where
  history : List String := []  -- URLs of the redirect chain
  url : String := ""           -- final URL
deriving Repr

/-- `urllib.parse.urlparse(u).netloc`: if the string has a `scheme:`
followed by `//`, the host part up to the next `/`, `?` or `#`;
a leading `//` with no scheme also introduces a netloc. -/
def netlocOf (url : Chars) : Chars :=
  let isSchemeChar : Char → Bool := fun c =>
    ('a' ≤ c ∧ c ≤ 'z') || ('A' ≤ c ∧ c ≤ 'Z') || isDigitChar c || c = '+' || c = '-' || c = '.'
  let afterScheme : Chars :=
    match url with
    | [] => url
    | c :: _ =>
        if ('a' ≤ c ∧ c ≤ 'z') || ('A' ≤ c ∧ c ≤ 'Z') then
          let run := url.takeWhile isSchemeChar
          let rest := url.drop run.length
          match rest with
          | ':' :: r => r
          | _ => url
        else url
  match afterScheme with
  | '/' :: '/' :: r => r.takeWhile (fun c => c ≠ '/' ∧ c ≠ '?' ∧ c ≠ '#')
  | _ => []

/-! ## Hacked-website detection

Embeds `detect_hacked_website` (lines 1784-1905).  The function's body
refers to a name `result` (lines 1840 and 1880) that is not defined in its
scope — `result` is a local variable of `analyze_content`, and there is no
global of that name — so every call raises `NameError`, which the
`except` handler at line 1898 turns into the neutral default. -/

def hacking_keywords : List String :=
  ["viagra", "cialis", "levitra", "pharmacy", "prescription drugs",
   "buy pills online", "cheap meds", "online pharmacy", "medications",
   "online casino", "poker online", "slots", "gambling", "bet online",
   "play casino", "win money", "jackpot", "betting site",
   "xxx", "porn", "adult content", "sex", "nude", "escorts",
   "payday loan", "quick loan", "fast cash", "instant approval",
   "bad credit loan", "no credit check", "guaranteed approval",
   "bitcoin mining", "crypto investment", "blockchain profit",
   "cryptocurrency trading", "btc doubler", "ethereum giveaway",
   "seo services", "backlinks for sale", "link building",
   "google ranking", "first page guaranteed",
   "replica watches", "fake documents", "essay writing service",
   "weight loss pills", "work from home", "make money online"]

structure HackedResult where
  is_hacked : Bool
  hacked_score : Nat
  confidence : Nat
  indicators : List String
deriving Repr, DecidableEq

/-- The `try`-block of `detect_hacked_website`.  The redirect scoring
(lines 1820-1832) is computed first; it cannot reach the return statement,
because the spam-keyword loop raises `NameError` at line 1840 on the first
keyword contained in the page (evaluating the undefined name `result`), and
if no keyword matches, line 1880 (`title = result.get('title', '')`)
raises unconditionally. -/
def detect_hacked_websiteBody (soup : Soup) (page_text : String)
    (response : Option Resp) : Except Unit HackedResult :=
  let redirectScore : Nat :=
    match response with
    | none => 0
    | some r =>
        if r.history.isEmpty then 0
        else
          let s1 := if r.history.length > 2 then 20 else 0
          let origDomain := match r.history.head? with
            | some u => netlocOf u.data
            | none => []
          let finalDomain := netlocOf r.url.data
          let s2 :=
            if origDomain ≠ [] ∧ finalDomain ≠ [] ∧ origDomain ≠ finalDomain then
              if ¬ (["google", "facebook", "microsoft"].any
                  (fun b => containsSub b.data finalDomain)) then 30 else 0
            else 0
          s1 + s2
  let text_lower := lowerChars page_text.data
  -- spam-keyword loop, lines 1836-1842: the body of the first matching
  -- keyword evaluates `result.get('industry_type', '')` → NameError
  if hacking_keywords.any (fun k => containsSub k.data text_lower) then
    Except.error ()
  else
    let hiddenScore : Nat := if soup.hiddenElems > 5 then 15 else 0
    let suspiciousScripts :=
      (soup.scriptTexts.filter (fun t =>
        ["eval(", "base64", "fromcharcode", "unescape"].any
          (fun m => containsSub m.data (lowerChars t.data)))).length
    let scriptScore : Nat := if suspiciousScripts > 2 then 20 else 0
    let suspiciousIframes :=
      (soup.iframes.filter (fun f =>
        (f.src != "") &&
        !(["youtube", "vimeo", "google", "facebook"].any
            (fun safe => containsSub safe.data f.src.data)) &&
        (match f.style with
         | some st => containsSub "display:none".data st.data ||
                      containsSub "visibility:hidden".data st.data
         | none => false))).length
    let iframeScore : Nat := if suspiciousIframes > 0 then 25 else 0
    -- line 1880: `title = result.get('title', '')` → NameError, so the
    -- accumulated score (redirectScore + hiddenScore + scriptScore +
    -- iframeScore) never reaches the threshold test at line 1888
    let _dead := redirectScore + hiddenScore + scriptScore + iframeScore
    Except.error ()

/-- `detect_hacked_website` with its `except` handler (lines 1898-1905). -/
def detect_hacked_website (soup : Soup) (page_text : String)
    (response : Option Resp) : HackedResult :=
  match detect_hacked_websiteBody soup page_text response with
  | Except.ok r => r
  | Except.error _ => ⟨false, 0, 0, []⟩

/-- Lines 1583-1588 of `analyze_content`: classification of the record stops
early (parked/business/industry are skipped) exactly when the detector
reports the page as hacked. -/
def analyze_content_stops_for_hacked (soup : Soup) (page_text : String)
    (response : Option Resp) : Bool :=
  (detect_hacked_website soup page_text response).is_hacked

/-- Every call of the detector raises `NameError` (line 1840 on any
matching spam keyword, line 1880 otherwise), so the handler's default is
always returned. -/
theorem detect_hacked_website_always_default (soup : Soup) (page_text : String)
    (response : Option Resp) :
    detect_hacked_website soup page_text response = ⟨false, 0, 0, []⟩ := by
  unfold detect_hacked_website detect_hacked_websiteBody
  split
  · rename_i heq
    split at heq <;> simp_all
  · rfl

/-- **C1**: the hacked-site detector is dead code.  Because its body reads
the undefined name `result` (NameError at line 1840 on any spam keyword,
or at line 1880 otherwise), every call returns the exception default with
`is_hacked = False` and confidence 0.  In particular a page whose title
contains "vacation rental" and whose body contains "cheap viagra" and
"online casino" is *not* flagged (the claimed composite score ≥ 40 is never
computed), and `analyze_content` does not return early for it. -/
theorem C1_hacked_detector_is_dead_code :
    (∀ (soup : Soup) (page_text : String) (response : Option Resp),
        detect_hacked_website soup page_text response = ⟨false, 0, 0, []⟩) ∧
    detect_hacked_website { }
        "Welcome to our vacation rental! Also cheap viagra deals and online casino bonuses."
        none = ⟨false, 0, 0, []⟩ ∧
    analyze_content_stops_for_hacked { }
        "Welcome to our vacation rental! Also cheap viagra deals and online casino bonuses."
        none = false := by
  refine ⟨detect_hacked_website_always_default, by decide, by decide⟩

/-! ## Connectivity monitor

Embeds `check_network_connectivity` (lines 1364-1409) as a state
transformer.  `now` is the value of `time.time()`; `probes` lists, for each
of the four fixed test URLs, whether the GET returned a status code in
`[200, 301, 302, 403, 404]`.  The 30-second sleep taken after a third
consecutive failure is a pure delay with no effect on the returned value or
the stored state, and is not modelled. -/

structure ConnState where
  lastConnectivityCheck : ℤ := 0   -- self.last_connectivity_check (init 0)
  consecutiveFailures : Nat := 0   -- self.consecutive_failures
  networkIssuesCount : Nat := 0    -- self.network_issues_count
deriving Repr, DecidableEq

def check_network_connectivity (st : ConnState) (now : ℤ) (probes : List Bool) :
    Bool × ConnState :=
  -- lines 1370-1372: inside the 30 s window with < 3 consecutive failures,
  -- return True without probing (the state is untouched)
  if now - st.lastConnectivityCheck < 30 ∧ st.consecutiveFailures < 3 then
    (true, st)
  else
    let st1 := { st with lastConnectivityCheck := now }
    let successes := (probes.filter id).length
    if successes ≥ 2 then
      (true, { st1 with networkIssuesCount := 0, consecutiveFailures := 0 })
    else
      (false, { st1 with networkIssuesCount := st1.networkIssuesCount + 1,
                         consecutiveFailures := st1.consecutiveFailures + 1 })

/-! ## Result records, statistics and the result sink

Embeds the fields of a result record that `write_result_realtime`
(lines 3424-3558) reads, the statistics aggregate, and the sink itself.
The CSV row written at line 3546 carries the record's own `domain` field
(line 3490); we model the two CSV files as lists of records. -/

structure ResultRecord where
  domain : String
  working : Bool := false
  final_url : String := ""
  protocol : String := ""
  status_code : Option Nat := none
  is_parked : Bool := false
  is_business : Bool := false
  error : String := ""
  failed_due_to_connectivity : Bool := false
  industry_type : String := ""
  company_size : String := ""
  vr_business_model : String := ""
  vr_priority : String := ""
  vr_decision_maker_accessible : String := ""
  vr_needs_website_upgrade : Bool := false
  vr_property_type : String := ""
  is_target_customer : Option Bool := none   -- Python: '' (unset) or a bool
  vr_exclusion_reason : String := ""
deriving Repr, DecidableEq

structure Stats where
  total_processed : Nat := 0
  working : Nat := 0
  business : Nat := 0
  parked : Nat := 0
  failed : Nat := 0
  industries : List (String × Nat) := []
  company_sizes : List (String × Nat) := []
  target_customers : Nat := 0
  excluded_businesses : List (String × Nat) := []
  vr_business_models : List (String × Nat) := []
  high_priority_targets : Nat := 0
  medium_priority_targets : Nat := 0
  decision_maker_accessible : Nat := 0
  website_needs_upgrade : Nat := 0
  vr_property_types : List (String × Nat) := []
deriving Repr, DecidableEq

/-- Increment a counter dict entry (`d[k] = d.get(k, 0) + 1`). -/
def bumpAssoc (l : List (String × Nat)) (k : String) : List (String × Nat) :=
  match l with
  | [] => [(k, 1)]
  | (q, v) :: rest => if q = k then (q, v + 1) :: rest else (q, v) :: bumpAssoc rest k

/-- `set.add` on the processed-domain set. -/
def addProcessed (l : List String) (d : String) : List String :=
  if l.contains d then l else l ++ [d]

structure SinkState where
  stats : Stats := {}
  csvMain : List ResultRecord := []
  csvHigh : List ResultRecord := []
  processedDomains : List String := []
deriving Repr, DecidableEq

/-- The statistics mutations of lines 3427-3481 (these happen before the
CSV write, so they persist even when the write fails). -/
def updateStats (st : Stats) (r : ResultRecord) : Stats :=
  let st := { st with total_processed := st.total_processed + 1 }
  let st := if r.working then { st with working := st.working + 1 } else st
  let st := if r.is_business then { st with business := st.business + 1 } else st
  let st := if r.is_parked then { st with parked := st.parked + 1 } else st
  let st := if r.error ≠ "" ∧ ¬ r.failed_due_to_connectivity then
      { st with failed := st.failed + 1 } else st
  let st := if r.industry_type ≠ "" then
      { st with industries := bumpAssoc st.industries r.industry_type } else st
  let st := if r.company_size ≠ "" then
      { st with company_sizes := bumpAssoc st.company_sizes r.company_size } else st
  if r.industry_type = "vacation_rental" then
    let st := if r.vr_business_model ≠ "" then
        { st with vr_business_models := bumpAssoc st.vr_business_models r.vr_business_model } else st
    let st := if r.vr_priority = "high" then
        { st with high_priority_targets := st.high_priority_targets + 1 }
      else if r.vr_priority = "medium" then
        { st with medium_priority_targets := st.medium_priority_targets + 1 }
      else st
    let st := if r.vr_decision_maker_accessible = "high" then
        { st with decision_maker_accessible := st.decision_maker_accessible + 1 } else st
    let st := if r.vr_needs_website_upgrade then
        { st with website_needs_upgrade := st.website_needs_upgrade + 1 } else st
    let st := if r.vr_property_type ≠ "" then
        { st with vr_property_types := bumpAssoc st.vr_property_types r.vr_property_type } else st
    match r.is_target_customer with
    | some true => { st with target_customers := st.target_customers + 1 }
    | some false =>
        if r.vr_exclusion_reason ≠ "" then
          { st with excluded_businesses := bumpAssoc st.excluded_businesses r.vr_exclusion_reason }
        else st
    | none => st
  else st

/-- `write_result_realtime` (lines 3424-3558).  `mainWriteOk` and
`highWriteOk` say whether the two `writerow`/`flush` calls succeed; a
failure raises, is caught by the handler at line 3557, and leaves the sink
in the state reached so far.  The domain is added to the processed set
(line 3555) only after every attempted write has succeeded. -/
def write_result_realtime (sk : SinkState) (r : ResultRecord)
    (mainWriteOk highWriteOk : Bool) : SinkState :=
  let stats' := updateStats sk.stats r
  if ¬ mainWriteOk then { sk with stats := stats' }
  else
    let sk1 := { sk with stats := stats', csvMain := sk.csvMain ++ [r] }
    if r.vr_priority = "high" ∧ r.industry_type = "vacation_rental" then
      if ¬ highWriteOk then sk1
      else
        let sk2 := { sk1 with csvHigh := sk1.csvHigh ++ [r] }
        { sk2 with processedDomains := addProcessed sk2.processedDomains r.domain }
    else
      { sk1 with processedDomains := addProcessed sk1.processedDomains r.domain }

/-! ## Per-domain check (`check_domain`, lines 1423-1511)

The record is created at line 1452 with `'domain': domain` — the *raw*
argument — and only afterwards (line 1476) is the local variable `domain`
re-bound to its stripped, lower-cased, scheme-less form, which is used only
to build the fetch URLs at line 1481.  `analyze_content` (called on a valid
200 response) fills classification fields but never writes to
`result['domain']`; those fields are irrelevant here and left at their
defaults.  The mutation of `self.consecutive_failures` on connection errors
belongs to the connectivity model and is not replayed here. -/

/-- One GET outcome, as `check_domain` distinguishes them. -/
inductive FetchOutcome where
  | connError                                       -- requests ConnectionError
  | otherError                                      -- any other exception
  | resp (status : Nat) (finalUrl : String) (valid : Bool)
deriving Repr, DecidableEq

/-- Line 1476-1478: `domain.strip().lower()`, then netloc extraction when
the string starts with "http". -/
def normalizeDomain (raw : String) : String :=
  let d1 := lowerChars (stripChars raw.data)
  if "http".data.isPrefixOf d1 then ⟨netlocOf d1⟩ else ⟨d1⟩

/-- One protocol attempt of the loop at lines 1480-1509: a 200 response
with valid content succeeds (first component); otherwise the record is
threaded on, with the error field overwritten on exceptions (a non-200 or
invalid response sets nothing). -/
def protoAttempt (rec : ResultRecord) (proto url : String)
    (oracle : String → FetchOutcome) : Option ResultRecord × ResultRecord :=
  match oracle url with
  | FetchOutcome.resp st finalUrl valid =>
      if st = 200 ∧ valid then
        (some { rec with working := true, final_url := finalUrl, protocol := proto,
                         status_code := some 200 }, rec)
      else (none, rec)
  | FetchOutcome.connError => (none, { rec with error := "Connection error" })
  | FetchOutcome.otherError => (none, { rec with error := "error" })

/-- `check_domain` given the connectivity-gate outcome and a response
oracle; returns the record and the list of URLs actually fetched. -/
def check_domain (rawDomain : String) (connectivityOk : Bool)
    (oracle : String → FetchOutcome) : ResultRecord × List String :=
  if ¬ connectivityOk then
    -- lines 1426-1450: early record, built with the raw `domain` argument
    ({ domain := rawDomain, working := false, error := "No network connectivity",
       failed_due_to_connectivity := true }, [])
  else
    let dnorm := normalizeDomain rawDomain
    let rec0 : ResultRecord := { domain := rawDomain }
    let urlHttps := "https://" ++ dnorm
    let urlHttp := "http://" ++ dnorm
    match protoAttempt rec0 "https" urlHttps oracle with
    | (some r, _) => (r, [urlHttps])
    | (none, rec1) =>
        match protoAttempt rec1 "http" urlHttp oracle with
        | (some r, _) => (r, [urlHttps, urlHttp])
        | (none, rec2) => (rec2, [urlHttps, urlHttp])

/-! ## Batch orchestrator (`check_domains_from_list`, lines 3740-3843)

`connOk i` is the outcome of the connectivity gate before batch `i`
(`check_network_connectivity` possibly followed by `wait_for_connectivity`);
`checkRes` gives each worker result; writes in `process_batch`
(line 3651) are assumed to succeed — write failures are the concern of the
sink model above. -/

structure Progress where
  processed_domains : List String
  current_batch : Nat
  total_batches : Nat
deriving Repr, DecidableEq

structure RunOutcome where
  batches : List (List String)
  fetched : List String
  checkpoints : List Progress
  sink : SinkState
deriving Repr, DecidableEq

/-- `process_batch` (lines 3640-3652): every domain of the batch is
dispatched to `check_domain` and its result written. -/
def process_batch (sk : SinkState) (batch : List String)
    (checkRes : String → ResultRecord) : SinkState :=
  batch.foldl (fun s d => write_result_realtime s (checkRes d) true true) sk

/-- The batch loop of lines 3786-3821: for each index from the loaded
`current_batch` up to `total_batches`, check connectivity (break on
failure), process the slice, then `save_progress`. -/
def orchLoop (remaining : List String) (batchSize total : Nat)
    (connOk : Nat → Bool) (checkRes : String → ResultRecord) :
    Nat → Nat → SinkState → RunOutcome
  | 0, _, sk => ⟨[], [], [], sk⟩
  | fuel + 1, batchNum, sk =>
      if batchNum < total then
        if connOk batchNum then
          let batch := (remaining.drop (batchNum * batchSize)).take batchSize
          let sk1 := process_batch sk batch checkRes
          let cp : Progress := ⟨sk1.processedDomains, batchNum + 1, total⟩
          let rest := orchLoop remaining batchSize total connOk checkRes fuel (batchNum + 1) sk1
          ⟨batch :: rest.batches, batch ++ rest.fetched, cp :: rest.checkpoints, rest.sink⟩
        else ⟨[], [], [], sk⟩
      else ⟨[], [], [], sk⟩

/-- `check_domains_from_list`.  `sk0.processedDomains` is the set loaded by
`load_progress`; `currentBatch0` the loaded `current_batch`;
`initialConnOk` the outcome of the start-up connectivity gate
(lines 3742-3746). -/
def check_domains_from_list (domains : List String) (batchSize : Nat)
    (sk0 : SinkState) (currentBatch0 : Nat) (initialConnOk : Bool)
    (connOk : Nat → Bool) (checkRes : String → ResultRecord) : RunOutcome :=
  if ¬ initialConnOk then ⟨[], [], [], sk0⟩
  else
    -- lines 3757-3763: filter already-processed domains
    let remaining :=
      if sk0.processedDomains ≠ [] then
        domains.filter (fun d => ¬ sk0.processedDomains.contains d)
      else domains
    if remaining.isEmpty then ⟨[], [], [], sk0⟩
    else
      -- line 3771: total_batches = ceil(len / batch_size)
      let total := (remaining.length + batchSize - 1) / batchSize
      orchLoop remaining batchSize total connOk checkRes (total - currentBatch0)
        currentBatch0 sk0

/-! ## Claims about the monitor, sink and per-domain check -/

/-- **C9** (counterexample): after a probe round in which all four probes
fail at time 100, the monitor returns False and records one consecutive
failure.  Consulted again at time 105 — inside the 30-second window, with
fewer than 3 consecutive failures — it returns True, not the cached False
of that last probe round (the code returns the constant True at line 1372;
it never stores the last probe result). -/
theorem C9_counterexample_cached_result :
    (check_network_connectivity { } 100 [false, false, false, false]).1 = false ∧
    (check_network_connectivity
        (check_network_connectivity { } 100 [false, false, false, false]).2
        105 [false, false, false, false]).1 = true := by decide

/-- **C9** (amended): within 30 seconds of the previous probe round and
with fewer than 3 consecutive failures, the monitor returns True without
re-probing (state untouched), regardless of what the last round returned;
otherwise it re-probes immediately: the probe timestamp is refreshed and
the result is determined by the new probe round (True iff at least two
probes succeed). -/
theorem C9_connectivity_cache_amended (st : ConnState) (now : ℤ) (probes : List Bool) :
    (now - st.lastConnectivityCheck < 30 ∧ st.consecutiveFailures < 3 →
      check_network_connectivity st now probes = (true, st)) ∧
    (¬ (now - st.lastConnectivityCheck < 30 ∧ st.consecutiveFailures < 3) →
      (check_network_connectivity st now probes).2.lastConnectivityCheck = now ∧
      ((check_network_connectivity st now probes).1 = true ↔
        2 ≤ (probes.filter id).length)) := by
  constructor
  · intro h
    unfold check_network_connectivity
    rw [if_pos h]
  · intro h
    unfold check_network_connectivity
    rw [if_neg h]
    refine ⟨?_, ?_⟩
    · dsimp only
      split <;> rfl
    · dsimp only
      split <;> rename_i hs
      · simpa using hs
      · simpa using hs

theorem C9_connectivity_cache_amended_witness :
    check_network_connectivity { } 5 [false, false, false, false] = (true, { }) :=
  (C9_connectivity_cache_amended { } 5 [false, false, false, false]).1 (by decide)

theorem mem_addProcessed {l : List String} {d a : String} :
    a ∈ addProcessed l d ↔ a ∈ l ∨ a = d := by
  unfold addProcessed
  split_ifs with h
  · constructor
    · exact Or.inl
    · rintro (h1 | rfl)
      · exact h1
      · simpa using h
  · simp [List.mem_append]

/-- A failed main write leaves the processed set untouched. -/
theorem write_fail_processed (sk : SinkState) (r : ResultRecord) (highOk : Bool) :
    (write_result_realtime sk r false highOk).processedDomains = sk.processedDomains := by
  unfold write_result_realtime
  rw [if_pos (by simp)]

/-- A successful main write adds the domain unless the record qualifies for
the high-priority file and that second write fails. -/
theorem write_true_processed (sk : SinkState) (r : ResultRecord) (highOk : Bool) :
    (write_result_realtime sk r true highOk).processedDomains =
      if (r.vr_priority = "high" ∧ r.industry_type = "vacation_rental") ∧ highOk = false
      then sk.processedDomains
      else addProcessed sk.processedDomains r.domain := by
  unfold write_result_realtime
  rw [if_neg (by simp)]
  by_cases hq : r.vr_priority = "high" ∧ r.industry_type = "vacation_rental"
  · rw [if_pos hq]
    cases highOk
    · rw [if_pos (by simp), if_pos (by simp [hq])]
    · rw [if_neg (by simp), if_neg (by simp)]
  · rw [if_neg hq, if_neg (by simp [hq])]

/-- **C6**: a result-write failure leaves the processed-domain set
unchanged, and the domain is added exactly when it was already present or
every attempted write (the main row, and the high-priority row when the
record qualifies for it) succeeded. -/
theorem C6_write_failure_not_marked_processed (sk : SinkState) (r : ResultRecord)
    (mainOk highOk : Bool) :
    (mainOk = false →
      (write_result_realtime sk r mainOk highOk).processedDomains = sk.processedDomains) ∧
    (r.domain ∈ (write_result_realtime sk r mainOk highOk).processedDomains ↔
      r.domain ∈ sk.processedDomains ∨
        (mainOk = true ∧
          (r.vr_priority = "high" ∧ r.industry_type = "vacation_rental" → highOk = true))) := by
  constructor
  · intro h
    subst h
    exact write_fail_processed sk r highOk
  · cases mainOk
    · rw [write_fail_processed]
      simp
    · rw [write_true_processed]
      by_cases hq : r.vr_priority = "high" ∧ r.industry_type = "vacation_rental"
      · cases highOk
        · rw [if_pos ⟨hq, rfl⟩]
          constructor
          · exact Or.inl
          · rintro (h1 | ⟨-, h2⟩)
            · exact h1
            · exact absurd (h2 hq) (by simp)
        · rw [if_neg (by simp), mem_addProcessed]
          constructor
          · rintro (h1 | h1)
            · exact Or.inl h1
            · exact Or.inr ⟨rfl, fun _ => rfl⟩
          · rintro (h1 | -)
            · exact Or.inl h1
            · exact Or.inr rfl
      · rw [if_neg (by simp [hq]), mem_addProcessed]
        constructor
        · rintro (h1 | h1)
          · exact Or.inl h1
          · exact Or.inr ⟨rfl, fun hc => absurd hc hq⟩
        · rintro (h1 | -)
          · exact Or.inl h1
          · exact Or.inr rfl

theorem C6_write_failure_witness :
    (write_result_realtime { } { domain := "a.com" } false true).processedDomains = [] :=
  (C6_write_failure_not_marked_processed { } { domain := "a.com" } false true).1 rfl

theorem protoAttempt_domain (rec : ResultRecord) (proto url : String)
    (oracle : String → FetchOutcome) :
    (∀ r, (protoAttempt rec proto url oracle).1 = some r → r.domain = rec.domain) ∧
    (protoAttempt rec proto url oracle).2.domain = rec.domain := by
  unfold protoAttempt
  rcases oracle url with _ | _ | ⟨st, fu, vl⟩
  · exact ⟨fun r h => by simp at h, rfl⟩
  · exact ⟨fun r h => by simp at h, rfl⟩
  · dsimp only
    split_ifs with h
    · exact ⟨fun r hr => by injection hr with hr; rw [← hr], rfl⟩
    · exact ⟨fun r hr => by simp at hr, rfl⟩

/-- **C10**: the record's `domain` field — and hence the key later added to
the processed set by the sink — is the raw input string; the fetch URLs are
the only place the stripped/lower-cased/scheme-less form is used. -/
theorem C10_raw_domain_recorded (raw : String) (connOk : Bool)
    (oracle : String → FetchOutcome) (sk : SinkState) :
    (check_domain raw connOk oracle).1.domain = raw ∧
    (∀ u ∈ (check_domain raw connOk oracle).2,
        u = "https://" ++ normalizeDomain raw ∨ u = "http://" ++ normalizeDomain raw) ∧
    raw ∈ (write_result_realtime sk (check_domain raw connOk oracle).1 true true).processedDomains := by
  have hdom : (check_domain raw connOk oracle).1.domain = raw := by
    unfold check_domain
    split
    · rfl
    · rcases hc1 : protoAttempt { domain := raw } "https"
          ("https://" ++ normalizeDomain raw) oracle with ⟨o1, rec1⟩
      have h1 := protoAttempt_domain { domain := raw } "https"
        ("https://" ++ normalizeDomain raw) oracle
      rw [hc1] at h1
      rcases o1 with _ | r
      · rcases hc2 : protoAttempt rec1 "http"
            ("http://" ++ normalizeDomain raw) oracle with ⟨o2, rec2⟩
        have h2 := protoAttempt_domain rec1 "http" ("http://" ++ normalizeDomain raw) oracle
        rw [hc2] at h2
        rcases o2 with _ | r2
        · simp only [hc1, hc2]
          exact h2.2.trans h1.2
        · simp only [hc1, hc2]
          exact (h2.1 r2 rfl).trans h1.2
      · simp only [hc1]
        exact h1.1 r rfl
  refine ⟨hdom, ?_, ?_⟩
  · intro u hu
    cases connOk with
    | false => simp [check_domain] at hu
    | true =>
      rcases hc1 : protoAttempt { domain := raw } "https"
          ("https://" ++ normalizeDomain raw) oracle with ⟨o1, rec1⟩
      rcases o1 with _ | r
      · rcases hc2 : protoAttempt rec1 "http"
            ("http://" ++ normalizeDomain raw) oracle with ⟨o2, rec2⟩
        rcases o2 with _ | r2
        · simp [check_domain, hc1, hc2] at hu
          rcases hu with h | h
          · exact Or.inl h
          · exact Or.inr h
        · simp [check_domain, hc1, hc2] at hu
          rcases hu with h | h
          · exact Or.inl h
          · exact Or.inr h
      · simp [check_domain, hc1] at hu
        exact Or.inl hu
  · rw [write_true_processed, if_neg (by simp)]
    exact mem_addProcessed.mpr (Or.inr hdom.symm)

theorem C10_raw_domain_recorded_witness :
    (check_domain " Ex.com " true (fun _ => FetchOutcome.connError)).1.domain = " Ex.com " ∧
    ("https://ex.com" = "https://" ++ normalizeDomain " Ex.com " ∨
     "https://ex.com" = "http://" ++ normalizeDomain " Ex.com ") :=
  ⟨(C10_raw_domain_recorded " Ex.com " true (fun _ => FetchOutcome.connError) { }).1,
   (C10_raw_domain_recorded " Ex.com " true (fun _ => FetchOutcome.connError) { }).2.1
      "https://ex.com" (by decide)⟩

/-- A successful main write appends exactly the record to the main CSV. -/
theorem write_ok_csvMain (sk : SinkState) (r : ResultRecord) (highOk : Bool) :
    (write_result_realtime sk r true highOk).csvMain = sk.csvMain ++ [r] := by
  unfold write_result_realtime
  rw [if_neg (by simp)]
  split_ifs <;> rfl

theorem process_batch_csvMain (checkRes : String → ResultRecord) (batch : List String) :
    ∀ (sk : SinkState) (r : ResultRecord),
      r ∈ (process_batch sk batch checkRes).csvMain ↔
        r ∈ sk.csvMain ∨ ∃ x ∈ batch, r = checkRes x := by
  induction batch with
  | nil => intro sk r; simp [process_batch]
  | cons dh rest ih =>
      intro sk r
      have hstep : process_batch sk (dh :: rest) checkRes =
          process_batch (write_result_realtime sk (checkRes dh) true true) rest checkRes := rfl
      rw [hstep, ih, write_ok_csvMain]
      simp only [List.mem_append, List.mem_cons, List.mem_singleton,
        List.not_mem_nil, or_false]
      constructor
      · rintro ((h | h) | ⟨x, hx, hr⟩)
        · exact Or.inl h
        · exact Or.inr ⟨dh, Or.inl rfl, h⟩
        · exact Or.inr ⟨x, Or.inr hx, hr⟩
      · rintro (h | ⟨x, (rfl | hx), hr⟩)
        · exact Or.inl (Or.inl h)
        · exact Or.inl (Or.inr hr)
        · exact Or.inr ⟨x, hx, hr⟩

theorem orchLoop_fetched_sub (remaining : List String) (batchSize total : Nat)
    (connOk : Nat → Bool) (checkRes : String → ResultRecord) :
    ∀ (fuel bn : Nat) (sk : SinkState) (x : String),
      x ∈ (orchLoop remaining batchSize total connOk checkRes fuel bn sk).fetched →
      x ∈ remaining := by
  intro fuel
  induction fuel with
  | zero => intro bn sk x hx; simp [orchLoop] at hx
  | succ n ih =>
      intro bn sk x hx
      simp only [orchLoop] at hx
      split_ifs at hx with h1 h2
      · simp only [List.mem_append] at hx
        rcases hx with hx | hx
        · exact List.drop_subset _ _ (List.take_subset _ _ hx)
        · exact ih _ _ _ hx
      · simp at hx
      · simp at hx

theorem orchLoop_csvMain (remaining : List String) (batchSize total : Nat)
    (connOk : Nat → Bool) (checkRes : String → ResultRecord) :
    ∀ (fuel bn : Nat) (sk : SinkState) (r : ResultRecord),
      r ∈ (orchLoop remaining batchSize total connOk checkRes fuel bn sk).sink.csvMain →
      r ∈ sk.csvMain ∨ ∃ x ∈ remaining, r = checkRes x := by
  intro fuel
  induction fuel with
  | zero => intro bn sk r hr; simp only [orchLoop] at hr; exact Or.inl hr
  | succ n ih =>
      intro bn sk r hr
      simp only [orchLoop] at hr
      split_ifs at hr with h1 h2
      · rcases ih _ _ _ hr with h | h
        · rcases (process_batch_csvMain checkRes _ sk r).mp h with h' | ⟨x, hx, hrx⟩
          · exact Or.inl h'
          · exact Or.inr ⟨x, List.drop_subset _ _ (List.take_subset _ _ hx), hrx⟩
        · exact Or.inr h
      · exact Or.inl hr
      · exact Or.inl hr

/-- **C7**: a domain in the loaded processed set is never fetched again and
never gets a new result row: the batches are formed from the filtered
remaining list only. -/
theorem C7_resume_skips_processed (domains : List String) (batchSize : Nat)
    (sk0 : SinkState) (cb0 : Nat) (initConn : Bool) (connOk : Nat → Bool)
    (checkRes : String → ResultRecord) (d : String)
    (hd : d ∈ sk0.processedDomains)
    (hdom : ∀ x, (checkRes x).domain = x) :
    d ∉ (check_domains_from_list domains batchSize sk0 cb0 initConn connOk checkRes).fetched ∧
    (∀ r ∈ (check_domains_from_list domains batchSize sk0 cb0 initConn connOk checkRes).sink.csvMain,
        r ∈ sk0.csvMain ∨ r.domain ≠ d) := by
  have hne : sk0.processedDomains ≠ [] := by
    intro h
    rw [h] at hd
    simp at hd
  have hdnr : d ∉ (domains.filter (fun x => ¬ sk0.processedDomains.contains x)) := by
    intro hmem
    have h2 := (List.mem_filter.mp hmem).2
    simp at h2
    exact h2 hd
  cases initConn with
  | false =>
      constructor
      · intro hx
        simp [check_domains_from_list] at hx
      · intro r hr
        simp [check_domains_from_list] at hr
        exact Or.inl hr
  | true =>
      simp only [check_domains_from_list]
      rw [if_neg (by simp), if_pos hne]
      by_cases hemp : (domains.filter (fun x => ¬ sk0.processedDomains.contains x)).isEmpty
      · rw [if_pos hemp]
        exact ⟨by simp, fun r hr => Or.inl hr⟩
      · rw [if_neg hemp]
        constructor
        · intro hx
          exact hdnr (orchLoop_fetched_sub _ _ _ _ _ _ _ _ _ hx)
        · intro r hr
          rcases orchLoop_csvMain _ _ _ _ _ _ _ _ _ hr with h | ⟨x, hx, rfl⟩
          · exact Or.inl h
          · refine Or.inr ?_
            rw [hdom x]
            intro hxd
            subst hxd
            exact hdnr hx

theorem C7_resume_skips_processed_witness :
    "a.com" ∉ (check_domains_from_list ["a.com", "b.com"] 1
        { processedDomains := ["a.com"] } 0 true (fun _ => true)
        (fun x => { domain := x })).fetched :=
  (C7_resume_skips_processed ["a.com", "b.com"] 1 { processedDomains := ["a.com"] } 0
    true (fun _ => true) (fun x => { domain := x }) "a.com"
    (by decide) (fun x => rfl)).1

/-- **C8**: with 50 unprocessed domains and batch size 20 the orchestrator
forms exactly the three consecutive batches of sizes 20, 20, 10 in input
order, and a checkpoint is saved after each batch, each carrying
`total_batches = 3`; the checkpoint after batch 1 has `current_batch = 1`
and `total_batches = 3`. -/
theorem C8_fifty_domains_three_batches (domains : List String) (sk0 : SinkState)
    (connOk : Nat → Bool) (checkRes : String → ResultRecord)
    (hlen : domains.length = 50)
    (hproc : sk0.processedDomains = [])
    (hconn : ∀ i, connOk i = true) :
    (check_domains_from_list domains 20 sk0 0 true connOk checkRes).batches =
      [domains.take 20, (domains.drop 20).take 20, (domains.drop 40).take 20] ∧
    (check_domains_from_list domains 20 sk0 0 true connOk checkRes).batches.map
      List.length = [20, 20, 10] ∧
    (check_domains_from_list domains 20 sk0 0 true connOk checkRes).batches.flatten = domains ∧
    (check_domains_from_list domains 20 sk0 0 true connOk checkRes).checkpoints.map
      Progress.current_batch = [1, 2, 3] ∧
    (check_domains_from_list domains 20 sk0 0 true connOk checkRes).checkpoints.map
      Progress.total_batches = [3, 3, 3] := by
  have hd0 : domains ≠ [] := by
    intro h
    rw [h] at hlen
    simp at hlen
  have hrem : (if sk0.processedDomains ≠ ([] : List String) then
      domains.filter (fun x => ¬ sk0.processedDomains.contains x) else domains) = domains := by
    rw [hproc]
    simp
  have hie : ¬ domains.isEmpty = true := by
    simp [List.isEmpty_iff, hd0]
  have hrun : check_domains_from_list domains 20 sk0 0 true connOk checkRes =
      orchLoop domains 20 3 connOk checkRes 3 0 sk0 := by
    simp only [check_domains_from_list]
    rw [if_neg (by simp), hrem, if_neg hie, hlen]
  have hb : (check_domains_from_list domains 20 sk0 0 true connOk checkRes).batches =
      [domains.take 20, (domains.drop 20).take 20, (domains.drop 40).take 20] := by
    rw [hrun]
    simp [orchLoop, hconn]
  have hcp : (check_domains_from_list domains 20 sk0 0 true connOk checkRes).checkpoints.map
        Progress.current_batch = [1, 2, 3] ∧
      (check_domains_from_list domains 20 sk0 0 true connOk checkRes).checkpoints.map
        Progress.total_batches = [3, 3, 3] := by
    rw [hrun]
    constructor <;> simp [orchLoop, hconn]
  refine ⟨hb, ?_, ?_, hcp.1, hcp.2⟩
  · rw [hb]
    simp [List.length_take, List.length_drop, hlen]
  · rw [hb]
    have h40 : (domains.drop 40).take 20 = domains.drop 40 :=
      List.take_of_length_le (by simp [hlen])
    simp only [List.flatten, List.append_nil, h40]
    rw [show domains.drop 40 = (domains.drop 20).drop 20 by simp [List.drop_drop]]
    rw [List.take_append_drop, List.take_append_drop]

theorem C8_fifty_domains_three_batches_witness :
    (check_domains_from_list (List.replicate 50 "d.com") 20 { } 0 true
        (fun _ => true) (fun x => { domain := x })).batches.map List.length = [20, 20, 10] :=
  (C8_fifty_domains_three_batches (List.replicate 50 "d.com") { } (fun _ => true)
    (fun x => { domain := x }) (by decide) rfl (fun _ => rfl)).2.1

/-! ## Third-party-listing detection

Embeds `detect_third_party_listing` (lines 2061-2157),
`analyze_marketplace_structure` (2159-2218) and
`check_known_listing_platforms` (2220-2252), with the
`third_party_listings` lexicon of lines 295-358.  The URL regexes are
searched with `re.IGNORECASE`; we lower-case the URL and match the
lower-case literals, which is equivalent on ASCII. -/

/-- `LIT\d+` at one position. -/
def tryLitDigit (lit : Chars) (s : Chars) : Bool :=
  match litAt lit s with
  | some (c :: _) => isDigitChar c
  | _ => false

/-- `re.search(LIT\d+, s)`. -/
def litDigitSearch (lit : String) (s : Chars) : Bool := searchB (tryLitDigit lit.data) s

/-- `re.search(L1.*L2, s)`: `L1` at some position, `L2` anywhere after it. -/
def litThenContainsSearch (l1 l2 : String) (s : Chars) : Bool :=
  searchB (fun t =>
    match litAt l1.data t with
    | some r => containsSub l2.data r
    | none => false) s

/-- The suffix after the first occurrence of a character. -/
def afterFirstChar (c : Char) : Chars → Option Chars
  | [] => none
  | x :: rest => if x = c then some rest else afterFirstChar c rest

/-- `(?:property|listing|rental)_?id=\d+` at one position (the optional
underscore is deterministic: `id=` cannot start with `_`). -/
def tryWordOptUnderscoreId (s : Chars) : Bool :=
  match altLitAt ["property".data, "listing".data, "rental".data] s with
  | some r =>
      let r2 := match r with
        | '_' :: rr => rr
        | _ => r
      (match litAt "id=".data r2 with
       | some (c :: _) => isDigitChar c
       | _ => false)
  | none => false

/-- `re.search(\?.*(?:property|listing|rental)_?id=\d+, s)`: a `?`
followed (at any distance) by the id pattern.  Searching after the first
`?` is complete, because later `?`s lie inside that suffix. -/
def qmarkWordIdSearch (s : Chars) : Bool :=
  match afterFirstChar '?' s with
  | some rest => searchB tryWordOptUnderscoreId rest
  | none => false

/-- `id=\d+.*(?:property|listing|rental)` at one position. -/
def tryIdDigitThenWord (s : Chars) : Bool :=
  match litAt "id=".data s with
  | some (c :: rest) =>
      isDigitChar c &&
      (["property".data, "listing".data, "rental".data].any
        (fun w => containsSub w rest))
  | _ => false

/-- `re.search(\?.*id=\d+.*(?:property|listing|rental), s)`. -/
def qmarkIdWordSearch (s : Chars) : Bool :=
  match afterFirstChar '?' s with
  | some rest => searchB tryIdDigitThenWord rest
  | none => false

/-- The 20 `url_patterns` of lines 296-317, as Boolean matchers. -/
def third_party_url_patterns : List (Chars → Bool) :=
  [litDigitSearch "/property/",
   litDigitSearch "/listing/",
   litDigitSearch "/rental/",
   litDigitSearch "/room/",
   litDigitSearch "/accommodation/",
   litDigitSearch "/p/",
   litDigitSearch "/r/",
   litDigitSearch "/l/",
   litDigitSearch "/properties/",
   litDigitSearch "/rentals/",
   fun u => litDigitSearch "/unit/" u || litDigitSearch "/units/" u,
   fun u => litDigitSearch "/home/" u || litDigitSearch "/homes/" u,
   qmarkWordIdSearch,
   qmarkIdWordSearch,
   litDigitSearch "/detail/",
   litDigitSearch "/view/",
   litDigitSearch "/show/",
   litThenContainsSearch "property." ".com",
   litThenContainsSearch "listing." ".com",
   litThenContainsSearch "rental." ".com"]

def third_party_content_indicators : List String :=
  ["property id", "listing id", "rental id", "property #", "listing #",
   "property number", "listing number", "id:", "ref:", "reference:",
   "book this property", "reserve this listing", "property details",
   "listing details", "view more properties", "browse more rentals",
   "similar properties", "more listings like this", "other properties",
   "property amenities", "listing amenities", "check availability",
   "booking calendar", "reservation system", "instant booking",
   "property photos", "listing photos", "property gallery",
   "hosted by", "managed by", "listed by", "property owner:",
   "contact host", "message host", "call host", "property manager",
   "booking fee", "service fee", "cleaning fee", "security deposit",
   "cancellation policy", "house rules", "guest reviews",
   "verified listing", "verified property", "trust & safety"]

def third_party_template_indicators : List String :=
  ["check-in:", "check-out:", "guests:", "bedrooms:", "bathrooms:",
   "sleeps up to", "accommodates", "maximum occupancy",
   "wifi included", "parking included", "pet friendly",
   "smoking policy", "minimum stay", "maximum stay",
   "property type:", "accommodation type:", "rental type:",
   "neighborhood:", "area:", "location:", "address:",
   "price per night", "nightly rate", "weekly rate", "monthly rate",
   "total price", "taxes and fees", "additional charges"]

def third_party_navigation_indicators : List String :=
  ["browse properties", "search rentals", "find accommodation",
   "property search", "rental search", "advanced search",
   "filter results", "sort by", "map view", "list view",
   "saved properties", "favorite listings", "compare properties",
   "recently viewed", "recommended for you", "popular destinations",
   "top-rated properties", "new listings", "last minute deals"]

def third_party_generic_contact_indicators : List String :=
  ["customer service", "customer support", "help center",
   "support team", "booking support", "contact us",
   "help desk", "call center", "1-800-", "1-888-", "1-877-",
   "toll free", "support@", "help@", "booking@", "reservations@",
   "info@", "contact@", "customer@", "service@"]

/-- Number of lexicon keywords present in the text (one hit each). -/
def countPresent (kws : List String) (text : Chars) : Nat :=
  (kws.filter (fun k => containsSub k.data text)).length

/-- `analyze_marketplace_structure(soup, page_text)` (lines 2159-2218). -/
def analyze_marketplace_structure (soup : Soup) (page_text : Chars) : Nat :=
  (if soup.bookingForms > 0 then 8 else 0) +
  (if soup.calendarElems > 0 then 6 else 0) +
  (if soup.reviewElems > 2 then 5 else 0) +
  (if soup.galleryElems > 0 then 4 else 0) +
  (if soup.amenityElems > 3 then 3 else 0) +
  (if countPresent ["bed", "bath", "sleep", "guest", "sqft", "sq ft"] page_text ≥ 4
     then 5 else 0) +
  (if soup.priceElems > 2 then 4 else 0) +
  (if soup.hostElems > 1 then 6 else 0) +
  (if soup.similarElems > 0 then 7 else 0) +
  (if soup.mapElems > 0 then 3 else 0)

def listing_platforms : List String :=
  ["airbnb", "vrbo", "booking", "expedia", "tripadvisor", "homeaway",
   "vacasa", "turnkey", "awaze", "novasol", "rentals.com", "flipkey",
   "redawning", "vacationrenter", "hometogo", "rentbyowner",
   "holidaylettings", "homelidays", "wimdu", "citybase", "uktvillas",
   "villasofthepworld", "luxuryretreats", "onefinestay", "sonder",
   "vacationhomerentals", "beachhouse", "mountaincabingetaway"]

def platform_brand_indicators : List String :=
  ["powered by airbnb", "vrbo listing", "booking.com property",
   "tripadvisor rental", "homeaway property", "vacasa managed",
   "listed on", "featured on", "available on", "book through",
   "reserve on", "property management by", "managed by"]

/-- `check_known_listing_platforms(url, page_text)` (lines 2220-2252):
+20 once for a known platform in the URL (loop breaks after the first),
+8 per branding phrase present in the text. -/
def check_known_listing_platforms (url : String) (page_text : Chars) : Nat :=
  (if listing_platforms.any (fun p => containsSub p.data (lowerChars url.data))
     then 20 else 0) +
  8 * countPresent platform_brand_indicators page_text

structure ListingDetection where
  is_third_party_listing : Bool
  confidence : ℤ              -- round(confidence) at line 2141
  url_patterns : Nat
  content_indicators : Nat
  template_indicators : Nat
  navigation_indicators : Nat
  generic_contact : Nat
  marketplace_features : Nat
  total_score : Nat
  weighted_score : PyFloat    -- round(weighted_score, 1) is exact here

open PyFloat in
/-- The weighted score of line 2125:
`0.20*url + 0.15*content + 0.12*template + 0.13*nav + 0.14*contact +
0.16*marketplace` (the factors are exact multiples of one tenth, so the
`PyFloat` value is the exact float value). -/
def listingWeightedScore (up ci ti ni gc mf : Nat) : PyFloat :=
  (((((((ofNat up).mul (tenths 20)).add ((ofNat ci).mul (tenths 15))).add
      ((ofNat ti).mul (tenths 12))).add ((ofNat ni).mul (tenths 13))).add
      ((ofNat gc).mul (tenths 14))).add ((ofNat mf).mul (tenths 16)))

open PyFloat in
/-- The decision ladder of lines 2133-2157. -/
def listingDecision (up ci ti ni gc mf total : Nat) (ws : PyFloat) :
    ListingDetection :=
  if leB (ofInt 25) ws then
    ⟨true, roundHE (fmin (ofInt 95) (ws.mul (ofInt 2))), up, ci, ti, ni, gc, mf, total, ws⟩
  else if leB (ofInt 15) ws then
    ⟨true, roundHE (fmin (ofInt 85) (ws.mul (tenths 25))), up, ci, ti, ni, gc, mf, total, ws⟩
  else if up ≥ 15 then
    ⟨true, 90, up, ci, ti, ni, gc, mf, total, ws⟩
  else
    ⟨false, 0, up, ci, ti, ni, gc, mf, total, ws⟩

open PyFloat in
/-- `detect_third_party_listing` (lines 2061-2157). -/
def detect_third_party_listing (soup : Soup) (page_text title description final_url : String) :
    ListingDetection :=
  let all_text := lowerChars
    (page_text ++ " " ++ title ++ " " ++ description ++ " " ++ final_url).data
  let urlLower := lowerChars final_url.data
  let up := 15 * (third_party_url_patterns.filter (fun p => p urlLower)).length
  let ci := sumCounts all_text third_party_content_indicators 3
  let ti := 4 * countPresent third_party_template_indicators all_text
  let ni := 5 * countPresent third_party_navigation_indicators all_text
  let gc := 6 * countPresent third_party_generic_contact_indicators all_text
  let mf := analyze_marketplace_structure soup all_text +
            check_known_listing_platforms final_url all_text
  let total := up + ci + ti + ni + gc + mf
  listingDecision up ci ti ni gc mf total (listingWeightedScore up ci ti ni gc mf)

/-! ## Vacation-rental business-model classification

Embeds `classify_vacation_rental_business_model` (lines 2254-2412) with the
`vacation_rental_business_models` lexicon (lines 278-418). -/

def marketplace_platform_keywords : List String :=
  ["airbnb", "vrbo", "booking.com", "expedia", "tripadvisor rentals",
   "homeaway", "vacasa", "hometogo", "flipkey", "vacationrenter",
   "rentals.com", "redawning", "turnkey", "awaze", "novasol",
   "marketplace", "platform", "book now", "search rentals",
   "find vacation rentals", "browse properties", "compare prices",
   "book direct", "instant book", "millions of rentals",
   "thousands of properties", "rental marketplace"]

def marketplace_url_indicators : List String :=
  ["airbnb.com", "vrbo.com", "booking.com", "expedia.com",
   "tripadvisor.com", "homeaway.com", "vacasa.com", "hometogo.com"]

def b2b_service_keywords : List String :=
  ["property management software", "vacation rental software",
   "channel manager", "pms", "property management system",
   "rental management platform", "booking engine", "reservation system",
   "dynamic pricing", "revenue management", "pricing tool",
   "cleaning management", "maintenance software", "guest messaging",
   "automation tools", "rental tools", "property manager tools",
   "vacation rental management", "short term rental software",
   "airbnb management", "rental automation", "hospitality software",
   "directory of tools", "tools and resources", "software solutions",
   "service provider", "technology partner", "integration",
   "api", "white label", "enterprise solution", "saas",
   "subscription", "pricing plans", "free trial", "demo",
   "for property managers", "for hosts", "for owners"]

def marketing_lead_gen_keywords : List String :=
  ["leads", "lead generation", "marketing services", "seo services",
   "website design", "digital marketing", "social media marketing",
   "advertising", "promotion", "marketing platform", "generate bookings",
   "increase revenue", "boost occupancy", "marketing tools",
   "listing optimization", "rank higher", "more visibility",
   "marketing agency", "consulting", "growth services"]

def aggregator_keywords : List String :=
  ["compare", "search all sites", "aggregator", "find deals",
   "best prices", "price comparison", "all vacation rentals",
   "search engine", "rental search", "compare rentals",
   "find rentals", "rental finder", "vacation rental search",
   "browse all", "search properties", "rental listings",
   "property search", "vacation search"]

def rental_operator_positive_indicators : List String :=
  ["our properties", "our rentals", "our vacation homes",
   "family owned", "locally owned", "established", "since",
   "years of experience", "personal service", "local knowledge",
   "property portfolio", "rental portfolio", "vacation homes",
   "beach houses", "mountain cabins", "lake houses",
   "contact us", "call us", "email us", "visit us",
   "based in", "located in", "serving", "specializing in",
   "luxury rentals", "premium properties", "exclusive rentals",
   "hand-picked", "carefully selected", "curated collection",
   "direct owner", "property owner", "private owner",
   "no booking fees", "no service fees", "book direct",
   "personal attention", "concierge service", "local host"]

/-- Weighted keyword occurrence score (`count * w(keyword)` summed over
keywords with `count > 0`; a zero count contributes nothing either way). -/
def weightedCounts (text : Chars) (kws : List String) (w : String → Nat) : Nat :=
  kws.foldl (fun acc k => acc + countOccs k.data text * w k) 0

/-- Python `max(scores, key=scores.get)` on an association list: the first
key of maximal value (a later key replaces the current one only when its
value is strictly greater). -/
def argmaxFirst (l : List (String × PyFloat)) (dflt : String × PyFloat) :
    String × PyFloat :=
  match l with
  | [] => dflt
  | p :: rest => rest.foldl (fun best q => if PyFloat.ltB best.2 q.2 then q else best) p

structure VRModelResult where
  business_model : String
  exclusion_reason : Option String
  confidence : PyFloat      -- integral except in the third-party override
  is_target_customer : Bool

open PyFloat in
/-- The category-scoring block, lines 2283-2351: the six scores in dict
insertion order, with the listing-evidence penalty applied to the
direct-operator score. -/
def vr_category_scores (all_text : Chars) (ld : ListingDetection) :
    List (String × PyFloat) :=
  let mp := weightedCounts all_text marketplace_platform_keywords (fun k =>
    if k = "airbnb" ∨ k = "vrbo" ∨ k = "booking.com" ∨ k = "expedia" then 10 else 3)
  let b2b := weightedCounts all_text b2b_service_keywords (fun k =>
    if k = "property management software" ∨ k = "vacation rental software" ∨ k = "pms"
    then 8
    else if k = "tools" ∨ k = "software" ∨ k = "platform" ∨ k = "solution" then 4
    else 2)
  let mk := weightedCounts all_text marketing_lead_gen_keywords (fun _ => 3)
  let ag := weightedCounts all_text aggregator_keywords (fun _ => 3)
  let dr0 := weightedCounts all_text rental_operator_positive_indicators (fun k =>
    if k = "our properties" ∨ k = "our rentals" ∨ k = "our vacation homes" ∨
       k = "direct owner" ∨ k = "property owner" then 10
    else if k = "family owned" ∨ k = "locally owned" ∨ k = "personal service" ∨
            k = "no booking fees" then 8
    else 3)
  let dr1 := dr0 + 3 * countPresent
    ["beach house", "mountain cabin", "lake house", "ski chalet", "downtown condo"]
    all_text
  let dr2 := dr1 + 2 * countPresent
    ["located in", "based in", "serving", "minutes from", "close to", "near"] all_text
  -- lines 2349-2351: listing-evidence penalty on the direct-operator score
  let dr : ℤ := if ld.confidence > 50 then max 0 ((dr2 : ℤ) - ld.confidence / 10) else dr2
  [("marketplace_platform", ofNat mp),
   ("b2b_service_provider", ofNat b2b),
   ("marketing_service", ofNat mk),
   ("aggregator_site", ofNat ag),
   ("direct_rental_operator", ofInt dr),
   ("third_party_listing",
      if ld.is_third_party_listing then ld.weighted_score else ofInt 0)]

open PyFloat in
/-- Lines 2364-2367: the percentage confidence of the winning category,
`min(95, top_score / total * 100)` when the total is positive and 0
otherwise. -/
def vr_final_confidence (scores : List (String × PyFloat)) : PyFloat :=
  let top := argmaxFirst scores ("marketplace_platform", ofInt 0)
  let total := scores.foldl (fun acc p => acc.add p.2) (ofInt 0)
  if ltB (ofInt 0) total then fmin (ofInt 95) ((top.2.div total).mul (ofInt 100))
  else ofInt 0

open PyFloat in
/-- `classify_vacation_rental_business_model` (lines 2254-2412). -/
def classify_vacation_rental_business_model (soup : Soup)
    (page_text title description final_url : String) : VRModelResult :=
  let all_text := lowerChars
    (page_text ++ " " ++ title ++ " " ++ description ++ " " ++ final_url).data
  let ld := detect_third_party_listing soup page_text title description final_url
  -- lines 2262-2270: third-party listing takes precedence over everything
  if ld.is_third_party_listing ∧ ld.confidence > 70 then
    ⟨"third_party_listing", some "third_party_listing", ofInt ld.confidence, false⟩
  -- lines 2272-2281: known marketplace URL
  else if marketplace_url_indicators.any
      (fun p => containsSub p.data (lowerChars final_url.data)) then
    ⟨"marketplace_platform", some "marketplace_platform", ofInt 95, false⟩
  else
    let scores := vr_category_scores all_text ld
    -- line 2354: all scores are ≥ 0, so max == 0 iff every score is 0
    if scores.all (fun p => p.2.num = 0) then
      ⟨"unknown", none, ofInt 0, true⟩   -- line 2359: default to potential customer
    else
      let top := argmaxFirst scores ("marketplace_platform", ofInt 0)
      let confidence := vr_final_confidence scores
      -- lines 2369-2377: third-party override
      if top.1 = "third_party_listing" ∨ ld.confidence > 60 then
        ⟨"third_party_listing", some "third_party_listing",
         fmax confidence (ofInt ld.confidence), false⟩
      else
        let is_target := top.1 = "direct_rental_operator"
        ⟨top.1, if is_target then none else some top.1,
         ofInt (roundHE confidence), is_target⟩

/-- **C2** (counterexample): on an input with no keyword signal at all,
every category score is zero — and the classifier returns
`is_target_customer = True` with model "unknown" (line 2359: "Default to
potential customer if unclear"), not False as claimed. -/
theorem C2_counterexample_all_zero_scores :
    (classify_vacation_rental_business_model { } "" "" "" "").is_target_customer = true ∧
    (classify_vacation_rental_business_model { } "" "" "" "").business_model = "unknown" := by
  constructor <;> decide

/-- **C2** (amended): `is_target_customer` is true only when the
maximum-scoring category is `direct_rental_operator`, or when all category
scores are zero — in which case the classifier returns model "unknown" and
*defaults to true*. -/
theorem C2_is_target_only_direct_or_unknown (soup : Soup)
    (page_text title description final_url : String)
    (h : (classify_vacation_rental_business_model soup page_text title description
        final_url).is_target_customer = true) :
    (classify_vacation_rental_business_model soup page_text title description
        final_url).business_model = "direct_rental_operator" ∨
    (classify_vacation_rental_business_model soup page_text title description
        final_url).business_model = "unknown" := by
  simp only [classify_vacation_rental_business_model] at h ⊢
  by_cases h1 : (detect_third_party_listing soup page_text title description
        final_url).is_third_party_listing = true ∧
      (detect_third_party_listing soup page_text title description final_url).confidence > 70
  · rw [if_pos h1] at h
    exact absurd h (by simp)
  · rw [if_neg h1] at h ⊢
    by_cases h2 : (marketplace_url_indicators.any
        (fun p => containsSub p.data (lowerChars final_url.data))) = true
    · rw [if_pos h2] at h
      exact absurd h (by simp)
    · rw [if_neg h2] at h ⊢
      by_cases h3 : ((vr_category_scores
            (lowerChars (page_text ++ " " ++ title ++ " " ++ description ++ " " ++
              final_url).data)
            (detect_third_party_listing soup page_text title description final_url)).all
          (fun p => p.2.num = 0)) = true
      · rw [if_pos h3]
        exact Or.inr rfl
      · rw [if_neg h3] at h ⊢
        by_cases h4 : (argmaxFirst (vr_category_scores
              (lowerChars (page_text ++ " " ++ title ++ " " ++ description ++ " " ++
                final_url).data)
              (detect_third_party_listing soup page_text title description final_url))
              ("marketplace_platform", PyFloat.ofInt 0)).1 = "third_party_listing" ∨
            (detect_third_party_listing soup page_text title description
              final_url).confidence > 60
        · rw [if_pos h4] at h
          exact absurd h (by simp)
        · rw [if_neg h4] at h ⊢
          simp only at h
          exact Or.inl (by
            have := of_decide_eq_true h
            simpa using this)

theorem C2_is_target_only_direct_or_unknown_witness :
    (classify_vacation_rental_business_model { } "" "" "" "").business_model =
        "direct_rental_operator" ∨
    (classify_vacation_rental_business_model { } "" "" "" "").business_model = "unknown" :=
  C2_is_target_only_direct_or_unknown { } "" "" "" "" (by decide)

/-- **C3** (counterexample): a final URL containing "airbnb.com" does *not*
guarantee the marketplace classification.  With body text "property id 5"
the third-party-listing detector scores weighted 36.5 (content indicator
`property id` ×1.5 plus the known-platform URL bonus 20 ×1.6), confidence
73 > 70, and the third-party check — which takes precedence — returns
`third_party_listing` with confidence 73, not `marketplace_platform` with
confidence 95. -/
theorem C3_counterexample_listing_precedence :
    pyIn "airbnb.com" "https://airbnb.com" = true ∧
    (classify_vacation_rental_business_model { } "property id 5" "" "" "https://airbnb.com").business_model
      = "third_party_listing" ∧
    (classify_vacation_rental_business_model { } "property id 5" "" "" "https://airbnb.com").business_model
      ≠ "marketplace_platform" ∧
    (classify_vacation_rental_business_model { } "property id 5" "" "" "https://airbnb.com").confidence.num
      = 73 ∧
    (classify_vacation_rental_business_model { } "property id 5" "" "" "https://airbnb.com").confidence.den
      = 1 := by
  refine ⟨by decide, by decide, by decide, by decide, by decide⟩

/-- **C3** (amended): if the final URL contains "airbnb.com" *and* the
third-party-listing detector (which runs first and takes precedence) has
not fired with confidence above 70, the classifier returns
`marketplace_platform` with confidence exactly 95 and
`is_target_customer = false`, regardless of any other keyword scores. -/
theorem C3_airbnb_marketplace_amended (soup : Soup)
    (page_text title description final_url : String)
    (hurl : containsSub "airbnb.com".data (lowerChars final_url.data) = true)
    (hnot : ¬ ((detect_third_party_listing soup page_text title description
          final_url).is_third_party_listing ∧
        (detect_third_party_listing soup page_text title description
          final_url).confidence > 70)) :
    (classify_vacation_rental_business_model soup page_text title description
        final_url).business_model = "marketplace_platform" ∧
    (classify_vacation_rental_business_model soup page_text title description
        final_url).confidence.num = 95 ∧
    (classify_vacation_rental_business_model soup page_text title description
        final_url).confidence.den = 1 ∧
    (classify_vacation_rental_business_model soup page_text title description
        final_url).is_target_customer = false := by
  unfold classify_vacation_rental_business_model
  rw [if_neg hnot, if_pos (by
    refine List.any_eq_true.mpr ⟨"airbnb.com", ?_, hurl⟩
    simp [marketplace_url_indicators])]
  exact ⟨rfl, rfl, rfl, rfl⟩

theorem C3_airbnb_marketplace_amended_witness :
    (classify_vacation_rental_business_model { } "" "" "" "https://airbnb.com").business_model
        = "marketplace_platform" ∧
    (classify_vacation_rental_business_model { } "" "" "" "https://airbnb.com").confidence.num = 95 ∧
    (classify_vacation_rental_business_model { } "" "" "" "https://airbnb.com").confidence.den = 1 ∧
    (classify_vacation_rental_business_model { } "" "" "" "https://airbnb.com").is_target_customer
        = false :=
  C3_airbnb_marketplace_amended { } "" "" "" "https://airbnb.com" (by decide) (by decide)

/-! ## Industry classification (`classify_industry`, lines 2784-2816;
lexicon `industry_keywords`, lines 421-479) -/

def industry_keywords : List (String × List String) :=
  [("vacation_rental",
    ["vacation rental", "holiday rental", "vacation home", "holiday home",
     "short term rental", "vacation property", "rental property",
     "beach house", "cabin rental", "cottage rental", "villa rental",
     "vacation accommodation", "holiday accommodation", "getaway",
     "book now", "check availability", "nightly rate", "per night",
     "airbnb", "vrbo", "homeaway", "booking.com", "expedia",
     "resort", "lodge", "retreat", "bed and breakfast", "b&b",
     "oceanfront", "beachfront", "lakefront", "mountain view",
     "private pool", "hot tub", "fireplace", "kitchen", "wifi"]),
   ("real_estate",
    ["real estate", "property", "homes for sale", "houses for sale",
     "buy home", "sell home", "realtor", "real estate agent",
     "mls", "multiple listing", "property search", "home search",
     "mortgage", "loan", "financing", "closing", "escrow",
     "square feet", "sq ft", "bedroom", "bathroom", "garage",
     "lot size", "acre", "price reduced", "new listing", "sold"]),
   ("dental",
    ["dentist", "dental", "teeth", "tooth", "oral health",
     "dental care", "dental office", "dental practice", "orthodontist",
     "oral surgeon", "periodontist", "endodontist", "hygienist",
     "cleaning", "filling", "crown", "bridge", "implant",
     "whitening", "braces", "invisalign", "root canal", "extraction"]),
   ("home_services",
    ["plumber", "plumbing", "electrician", "electrical", "hvac",
     "heating", "cooling", "air conditioning", "contractor",
     "construction", "renovation", "remodeling", "roofing",
     "painting", "flooring", "landscaping", "cleaning service",
     "handyman", "repair", "installation", "maintenance"]),
   ("legal",
    ["lawyer", "attorney", "legal", "law firm", "legal services",
     "personal injury", "divorce", "criminal defense", "bankruptcy",
     "estate planning", "wills", "probate", "litigation",
     "consultation", "legal advice", "court", "settlement"]),
   ("financial",
    ["bank", "banking", "credit union", "financial", "loan",
     "mortgage", "insurance", "investment", "financial advisor",
     "accounting", "tax", "cpa", "bookkeeping", "payroll",
     "retirement", "401k", "ira", "wealth management", "portfolio"]),
   ("restaurant_food",
    ["restaurant", "cafe", "bar", "dining", "menu", "food",
     "catering", "delivery", "takeout", "reservation", "chef",
     "cuisine", "breakfast", "lunch", "dinner", "pizza",
     "burger", "coffee", "bakery", "deli", "grill"]),
   ("healthcare_medical",
    ["doctor", "physician", "medical", "clinic", "hospital",
     "health", "patient", "appointment", "treatment", "surgery",
     "therapy", "diagnosis", "prescription", "insurance",
     "medicare", "medicaid", "emergency", "urgent care"])]

/-- Python `max(d, key=d.get)` over `Nat` scores: first key of maximal
value.  Applied to the full category list it agrees with the source, which
builds the dict from positive-score categories only, whenever the maximum
is positive (zero entries never strictly exceed a later maximum). -/
def argmaxFirstNat (l : List (String × Nat)) (dflt : String × Nat) : String × Nat :=
  match l with
  | [] => dflt
  | p :: rest => rest.foldl (fun best q => if best.2 < q.2 then q else best) p

structure IndustryResult where
  industry : String
  confidence : Nat
deriving Repr, DecidableEq

/-- One industry's weighted score: per keyword present, the occurrence
count of the keyword in the combined text, tripled when the keyword also
occurs in the (non-empty) title, doubled when in the description. -/
def industryScore (all_text titleLower descLower : Chars) (kws : List String) : Nat :=
  kws.foldl (fun acc k =>
    if containsSub k.data all_text then
      let freq := countOccs k.data all_text
      if titleLower ≠ [] ∧ containsSub k.data titleLower then acc + freq * 3
      else if descLower ≠ [] ∧ containsSub k.data descLower then acc + freq * 2
      else acc + freq
    else acc) 0

def classify_industry (page_text title description : String) : IndustryResult :=
  let all_text := lowerChars (page_text ++ " " ++ title ++ " " ++ description).data
  let titleLower := lowerChars title.data
  let descLower := lowerChars description.data
  let scores := industry_keywords.map (fun p =>
    (p.1, industryScore all_text titleLower descLower p.2))
  if scores.all (fun p => p.2 = 0) then
    ⟨"general_business", 0⟩
  else
    let top := argmaxFirstNat scores ("vacation_rental", 0)
    ⟨top.1, min 95 (top.2 * 10)⟩

/-! ## Property-type classification (`classify_vr_property_type`,
lines 975-1018; lexicon `vr_industry_patterns`, lines 722-755) -/

def vr_industry_patterns :
    List (String × (List String × List String × List String)) :=
  [("beach",
    (["beach", "ocean", "oceanfront", "beachfront", "coastal",
      "seaside", "shore", "gulf", "atlantic", "pacific",
      "sand", "surf", "waves", "tides", "dunes"],
     ["summer rentals", "spring break", "off-season rates"],
     ["beach access", "ocean view", "beach chairs", "umbrellas"])),
   ("mountain",
    (["mountain", "ski", "alpine", "cabin", "chalet",
      "elevation", "peaks", "slopes", "trails", "hiking",
      "ski-in", "ski-out", "lodge", "retreat"],
     ["ski season", "summer hiking", "fall colors"],
     ["hot tub", "fireplace", "ski storage", "4wd required"])),
   ("lake",
    (["lake", "lakefront", "waterfront", "dock", "boat",
      "fishing", "swimming", "water sports", "marina"],
     ["summer season", "boating season"],
     ["private dock", "boat launch", "fishing gear", "kayaks"])),
   ("urban",
    (["downtown", "city center", "metro", "urban", "walkable",
      "transit", "nightlife", "restaurants", "shopping"],
     ["event pricing", "convention rates"],
     ["parking included", "walk to", "public transit", "wifi"])),
   ("rural",
    (["country", "rural", "farm", "ranch", "secluded",
      "private", "acres", "peaceful", "quiet", "nature"],
     ["harvest season", "hunting season"],
     ["acreage", "privacy", "wildlife", "stargazing"]))]

structure PropertyTypeResult where
  ptype : String      -- result key 'type'
  confidence : Nat
deriving Repr, DecidableEq

def classify_vr_property_type (text title description : String) : PropertyTypeResult :=
  let all_text := lowerChars (text ++ " " ++ title ++ " " ++ description).data
  let scores := vr_industry_patterns.map (fun p =>
    (p.1, sumCounts all_text p.2.1 3 + 5 * countPresent p.2.2.1 all_text +
          4 * countPresent p.2.2.2 all_text))
  if scores.all (fun p => p.2 = 0) then
    ⟨"general", 0⟩
  else
    let top := argmaxFirstNat scores ("beach", 0)
    ⟨top.1, min 95 (top.2 * 2)⟩

/-! ## Geographic-scope detection (`detect_geographic_scope`,
lines 1260-1295; lexicon `geographic_scope_patterns`, lines 694-719) -/

/-- `\w+\s*(?:ALT)` after some word characters already begin: at each
boundary after one or more word characters, try optional whitespace then an
alternative (this is the regex's backtracking over the extent of `\w+`). -/
def wordRunThenAlts (alts : List Chars) : Chars → Bool
  | [] => (altLitAt alts []).isSome
  | c :: rest =>
      (altLitAt alts (skipSpaces0 (c :: rest))).isSome ||
      (isWordChar c && wordRunThenAlts alts rest)

/-- `re.search(serving\s+\w+\s*(?:area|region|community))`. -/
def servingAreaSearch (s : Chars) : Bool :=
  searchB (fun t =>
    match litAt "serving".data t with
    | some r =>
        (match skipSpaces1 r with
         | some (c :: rest) => isWordChar c && wordRunThenAlts
             ["area".data, "region".data, "community".data] rest
         | _ => false)
    | none => false) s

/-- `re.search((?:throughout|across)\s+\w+)`. -/
def throughoutSearch (s : Chars) : Bool :=
  searchB (fun t =>
    match altLitAt ["throughout".data, "across".data] t with
    | some r =>
        (match skipSpaces1 r with
         | some (c :: _) => isWordChar c
         | _ => false)
    | none => false) s

def containsAny (kws : List String) (s : Chars) : Bool :=
  kws.any (fun k => containsSub k.data s)

def geographic_scope_patterns :
    List (String × (List String × (Chars → Bool) × Nat)) :=
  [("local",
    (["local", "locally owned", "serving [city]", "in [city]",
      "area", "neighborhood", "community", "hometown"],
     servingAreaSearch, 1)),
   ("regional",
    (["regional", "multiple cities", "throughout [state]",
      "across [state]", "statewide", "[state] properties"],
     throughoutSearch, 2)),
   ("national",
    (["nationwide", "national", "coast to coast",
      "multiple states", "across america", "usa wide"],
     containsAny ["nationwide", "national", "multiple states"], 3)),
   ("international",
    (["international", "global", "worldwide",
      "multiple countries", "globally"],
     containsAny ["international", "global", "worldwide"], 4))]

structure GeoScopeResult where
  scope : String
  confidence : Nat
  scope_score : Nat
deriving Repr, DecidableEq

def detect_geographic_scope (text : String) : GeoScopeResult :=
  let t := text.data
  let scores := geographic_scope_patterns.map (fun p =>
    (p.1, 10 * countPresent p.2.1 t + (if p.2.2.1 t then 15 else 0)))
  if scores.all (fun p => p.2 = 0) then
    ⟨"local", 50, 0⟩    -- line 1282: default to local at confidence 50
  else
    let top := argmaxFirstNat scores ("local", 0)
    ⟨top.1, min 95 (top.2 * 3),
     ((geographic_scope_patterns.find? (fun p => p.1 = top.1)).map
       (fun p => p.2.2.2)).getD 0⟩

/-! ## Language detection (`detect_website_language`, lines 1908-2059)

Unicode-range scoring inspects the raw page text; word and special-character
scoring inspect the lower-cased text (ASCII lower-casing in this model).
Scores advance in half-units (0.5 per special character), so they are kept
doubled as naturals. -/

structure LangPattern where
  name : String
  words : List String
  chars : List Char
  ranges : List (Nat × Nat)

def language_patterns : List LangPattern :=
  [⟨"english",
    ["the", "and", "for", "with", "this", "that", "from", "have", "will", "about"],
    "abcdefghijklmnopqrstuvwxyz".data, []⟩,
   ⟨"spanish",
    ["para", "con", "por", "que", "una", "los", "las", "este", "esta", "más"],
    "ñáéíóúü".data, []⟩,
   ⟨"french",
    ["pour", "avec", "dans", "sur", "les", "des", "une", "est", "être", "plus"],
    "àâçèéêëîïôùûüÿœæ".data, []⟩,
   ⟨"german",
    ["der", "die", "das", "und", "für", "mit", "ist", "auf", "ein", "eine"],
    "äöüß".data, []⟩,
   ⟨"italian",
    ["per", "con", "del", "della", "che", "una", "sono", "più", "anche", "come"],
    "àèéìòù".data, []⟩,
   ⟨"portuguese",
    ["para", "com", "por", "que", "uma", "são", "não", "mais", "foi", "está"],
    "ãõçáéíóúâêô".data, []⟩,
   ⟨"dutch",
    ["van", "het", "een", "voor", "met", "aan", "bij", "ook", "maar", "deze"],
    "ëï".data, []⟩,
   ⟨"chinese", [], [], [(0x4E00, 0x9FFF)]⟩,
   ⟨"japanese", [], [], [(0x3040, 0x309F), (0x30A0, 0x30FF)]⟩,
   ⟨"arabic", [], [], [(0x0600, 0x06FF)]⟩,
   ⟨"russian",
    ["и", "в", "на", "с", "по", "для", "не", "что", "это", "как"],
    [], [(0x0400, 0x04FF)]⟩]

/-- Doubled score of one language: 2 per common-word token, 1 per special
character (0.5 doubled), 2 per character in a Unicode range. -/
def langScore2 (tokensLower : List Chars) (textLower rawText : Chars)
    (p : LangPattern) : Nat :=
  2 * (p.words.foldl (fun acc w => acc + (tokensLower.filter (fun t => t = w.data)).length) 0) +
  (textLower.filter (fun c => p.chars.contains c)).length +
  2 * (rawText.filter (fun c =>
      p.ranges.any (fun r => decide (r.1 ≤ c.toNat ∧ c.toNat ≤ r.2)))).length

def lang_map : List (String × String) :=
  [("en", "english"), ("es", "spanish"), ("fr", "french"),
   ("de", "german"), ("it", "italian"), ("pt", "portuguese"),
   ("nl", "dutch"), ("zh", "chinese"), ("ja", "japanese"),
   ("ar", "arabic"), ("ru", "russian")]

structure LangResult where
  primary_language : String
  is_non_english : Bool
  confidence : PyFloat

open PyFloat in
/-- Lines 2016-2023: the lexical winner and the confidence contribution
`(top / total) * 50` added to the declared-language base. -/
def langLexicalPair (base : Nat) (scores : List (String × Nat)) (total2 : Nat) :
    String × PyFloat :=
  if scores.all (fun p => p.2 = 0) then
    ("unknown", ofNat base)
  else
    let top := argmaxFirstNat scores ("english", 0)
    (top.1, (ofNat base).add (((ofNat top.2).div (ofNat total2)).mul (ofInt 50)))

open PyFloat in
def detect_website_language (soup : Soup) (page_text : String) : LangResult :=
  -- declared-language signals (lines 1914-1927)
  let htmlCode : Option String :=
    match soup.htmlLang with
    | some l => if l ≠ "" then some ⟨lowerChars (l.data.take 2)⟩ else none
    | none => none
  let metaCodes := (soup.metaLangContents.map
      (fun c => lowerChars (c.data.take 2))).filter (fun c => c ≠ [])
  let base : Nat := (if htmlCode.isSome then 30 else 0) + 20 * metaCodes.length
  -- lexical scoring (lines 1929-2023)
  let textLower := lowerChars page_text.data
  let tokens := splitWs textLower
  let scores := language_patterns.map (fun p =>
    (p.name, langScore2 tokens textLower page_text.data p))
  let total2 := scores.foldl (fun acc p => acc + p.2) 0
  let lexical := langLexicalPair base scores total2
  -- the html lang attribute overrides the lexical winner (lines 2026-2038)
  let combined : String × PyFloat :=
    match htmlCode with
    | some code =>
        match lang_map.find? (fun p => p.1.data = code.data) with
        | some p => (p.2, fmin (ofInt 95) (lexical.2.add (ofInt 20)))
        | none => lexical
    | none => lexical
  ⟨combined.1,
   combined.1 ≠ "english" ∧ combined.1 ≠ "unknown",
   fmin (ofInt 95) combined.2⟩

/-! ## Decision-maker accessibility (`calculate_decision_maker_score`,
lines 806-873; lexicon `decision_maker_indicators`, lines 598-629)

All regexes are searched with `re.IGNORECASE`; the text is lower-cased and
lower-case literals matched.  Greedy scanning is exact for each pattern
(every greedy element is followed by a token from a disjoint character
class).  The human-readable `indicators_found` strings are not modelled. -/

def isAsciiAlpha (c : Char) : Bool := ('a' ≤ c ∧ c ≤ 'z') || ('A' ≤ c ∧ c ≤ 'Z')

/-- `\b(call|contact|text)\s+\w+\s+(directly|personally)` at one
position, given whether the previous character is a word character. -/
def tryCallDirectly (prevW : Bool) (s : Chars) : Bool :=
  if prevW then false
  else
    match altLitAt ["call".data, "contact".data, "text".data] s with
    | some r =>
        (match skipSpaces1 r with
         | some r1 =>
             let run := r1.takeWhile isWordChar
             if run.isEmpty then false
             else
               (match skipSpaces1 (r1.drop run.length) with
                | some r2 => (altLitAt ["directly".data, "personally".data] r2).isSome
                | none => false)
         | none => false)
    | none => false

def searchPrevAux (try_ : Bool → Chars → Bool) : Bool → Chars → Bool
  | prevW, [] => try_ prevW []
  | prevW, c :: rest => try_ prevW (c :: rest) || searchPrevAux try_ (isWordChar c) rest

def searchPrev (try_ : Bool → Chars → Bool) (s : Chars) : Bool :=
  searchPrevAux try_ false s

/-- `owner[\s\-]?(direct|operated)` at one position. -/
def tryOwnerDirect (s : Chars) : Bool :=
  match litAt "owner".data s with
  | some r =>
      let r2 := match r with
        | c :: rest => if isSpaceChar c || c = '-' then rest else r
        | [] => r
      (altLitAt ["direct".data, "operated".data] r2).isSome
  | none => false

/-- `ask for \w+` at one position. -/
def tryAskFor (s : Chars) : Bool :=
  match litAt "ask for ".data s with
  | some (c :: _) => isWordChar c
  | _ => false

/-- `speak (to|with) \w+` at one position. -/
def trySpeakTo (s : Chars) : Bool :=
  match litAt "speak ".data s with
  | some r =>
      (match altLitAt ["to".data, "with".data] r with
       | some (' ' :: c :: _) => isWordChar c
       | _ => false)
  | none => false

/-- `\w+@[a-zA-Z0-9-]+\.[a-zA-Z]{2,}` at one position. -/
def tryEmailLike (s : Chars) : Bool :=
  let run := s.takeWhile isWordChar
  if run.isEmpty then false
  else
    match s.drop run.length with
    | '@' :: r2 =>
        let dom := r2.takeWhile (fun c => isAsciiAlpha c || isDigitChar c || c = '-')
        if dom.isEmpty then false
        else
          (match r2.drop dom.length with
           | '.' :: r3 => (r3.takeWhile isAsciiAlpha).length ≥ 2
           | _ => false)
    | _ => false

/-- `my (name is|cell|phone|direct)` at one position. -/
def tryMyContact (s : Chars) : Bool :=
  match litAt "my ".data s with
  | some r =>
      (altLitAt ["name is".data, "cell".data, "phone".data, "direct".data] r).isSome
  | none => false

/-- `I (started|founded|own|manage)`, lower-cased, at one position. -/
def tryIStarted (s : Chars) : Bool :=
  match litAt "i ".data s with
  | some r =>
      (altLitAt ["started".data, "founded".data, "own".data, "manage".data] r).isSome
  | none => false

/-- `(family|locally) owned and operated` at one position. -/
def tryFamilyOwned (s : Chars) : Bool :=
  match altLitAt ["family".data, "locally".data] s with
  | some r => " owned and operated".data.isPrefixOf r
  | none => false

/-- The high-accessibility pattern searches (the 8 regexes of lines
600-608) on the lower-cased text. -/
def decisionMakerPatternHits (tl : Chars) : Nat :=
  (if searchPrev tryCallDirectly tl then 1 else 0) +
  (if searchB tryOwnerDirect tl then 1 else 0) +
  (if searchB tryAskFor tl then 1 else 0) +
  (if searchB trySpeakTo tl then 1 else 0) +
  (if searchB tryEmailLike tl then 1 else 0) +
  (if searchB tryMyContact tl then 1 else 0) +
  (if searchB tryIStarted tl then 1 else 0) +
  (if searchB tryFamilyOwned tl then 1 else 0)

def dm_high_keywords : List String :=
  ["owner direct", "call me", "text me", "personally manage",
   "family owned", "owner operated", "ask for", "speak to",
   "direct line", "cell phone", "mobile number", "personal service"]

def dm_negative_keywords : List String :=
  ["corporate", "headquarters", "investor relations", "press inquiries",
   "human resources", "legal department", "compliance"]

def dm_low_keywords : List String :=
  ["corporate office", "headquarters", "investor relations",
   "press inquiries", "media contact", "hr department",
   "legal counsel", "board of directors", "shareholders",
   "publicly traded", "stock symbol", "sec filings"]

def dm_generic_email_prefixes : List String :=
  ["info@", "contact@", "support@", "hello@", "admin@"]

/-- The slice of `business_info` that the scorer reads. -/
structure BusinessInfo where
  emails : List String := []
  phones : List String := []
  word_count : Nat := 0        -- website_metrics['word_count']
deriving Repr

structure DecisionMakerResult where
  score : ℤ
  confidence : ℤ
  level : String
deriving Repr, DecidableEq

def calculate_decision_maker_score (_soup : Soup) (text : String)
    (bi : BusinessInfo) : DecisionMakerResult :=
  let tl := lowerChars text.data
  let patScore : ℤ := 20 * decisionMakerPatternHits tl
  let kwScore : ℤ := 10 * countPresent dm_high_keywords tl
  let emailScore : ℤ := 25 * ((bi.emails.filter (fun e =>
      e ≠ "" ∧ ¬ dm_generic_email_prefixes.any
        (fun p => containsSub p.data (lowerChars e.data)))).length : ℤ)
  let negScore : ℤ := 15 * countPresent dm_negative_keywords tl
  let lowScore : ℤ := 20 * countPresent dm_low_keywords tl
  -- lines 845-852: +15 per phone when the text mentions a personal-phone word
  let phoneScore : ℤ :=
    if containsAny ["cell", "mobile", "direct", "personal"] tl then
      15 * (bi.phones.length : ℤ)
    else 0
  let smallBonus : ℤ := if bi.word_count < 1000 then 10 else 0
  let score := patScore + kwScore + emailScore - negScore - lowScore +
    phoneScore + smallBonus
  ⟨score, min 95 |score|,
   if score > 30 then "high" else if score > 0 then "medium" else "low"⟩

/-! ## Website-upgrade-need scoring (`detect_website_upgrade_needs`,
lines 875-973; lexicon `website_quality_indicators`, lines 632-669).
The indicator strings collected for display are not modelled. -/

def upgrade_technical_indicators : List String :=
  ["last updated", "under construction", "coming soon",
   "best viewed in internet explorer", "requires flash",
   "site best viewed at", "enable javascript", "frames version",
   "text only version", "low bandwidth version"]

def upgrade_functional_indicators : List String :=
  ["email for availability", "call for rates", "contact for pricing",
   "inquire about dates", "check availability by phone",
   "no online booking", "email to reserve", "call to book",
   "fax your request", "mail check", "money order accepted"]

def upgrade_design_indicators : List String :=
  ["welcome to my website", "thanks for visiting", "you are visitor number",
   "page counter", "guestbook", "sign my guestbook", "web ring",
   "site map", "frames", "table layout", "animated gif",
   "under construction gif", "spinning logo", "marquee text"]

def modern_technical_indicators : List String :=
  ["mobile responsive", "ssl secure", "instant booking",
   "real-time availability", "online payment", "secure checkout",
   "api integration", "channel sync", "dynamic pricing"]

/-- `(\d{4})`: exactly four digits at this position (a longer digit run
still matches on its first four). -/
def fourDigitsAt (s : Chars) : Option (Nat × Chars) :=
  match s with
  | a :: b :: c :: d :: rest =>
      if isDigitChar a ∧ isDigitChar b ∧ isDigitChar c ∧ isDigitChar d then
        some (digitsVal [a, b, c, d], rest)
      else none
  | _ => none

def optChar (c : Char) (s : Chars) : Chars :=
  match s with
  | x :: rest => if x = c then rest else s
  | [] => s

/-- `copyright\s*(?:©)?\s*(\d{4})` at one position. -/
def tryCopyrightYear (s : Chars) : Option (Nat × Chars) := do
  let r0 ← litAt "copyright".data s
  fourDigitsAt (skipSpaces0 (optChar '©' (skipSpaces0 r0)))

/-- `last\s*updated?\s*:?\s*(\d{4})` at one position. -/
def tryLastUpdatedYear (s : Chars) : Option (Nat × Chars) := do
  let r0 ← litAt "last".data s
  let r1 ← litAt "update".data (skipSpaces0 r0)
  fourDigitsAt (skipSpaces0 (optChar ':' (skipSpaces0 (optChar 'd' r1))))

/-- `(?:established|since|founded)\s*:?\s*(\d{4})` at one position. -/
def tryEstablishedYear (s : Chars) : Option (Nat × Chars) := do
  let r0 ← altLitAt ["established".data, "since".data, "founded".data] s
  fourDigitsAt (skipSpaces0 (optChar ':' (skipSpaces0 r0)))

/-- Lines 900-911: every matched year before 2020 adds `(2024 - year) * 5`. -/
def upgradeAgeScore (tl : Chars) : Nat :=
  (findAll tryCopyrightYear tl ++ findAll tryLastUpdatedYear tl ++
   findAll tryEstablishedYear tl).foldl
    (fun acc y => if y < 2020 then acc + (2024 - y) * 5 else acc) 0

structure UpgradeResult where
  needs_upgrade : Bool
  upgrade_score : ℤ
  confidence : ℤ
deriving Repr, DecidableEq

def detect_website_upgrade_needs (soup : Soup) (text : String)
    (response : Option Resp) : UpgradeResult :=
  let tl := lowerChars text.data
  let upgrade : Nat :=
    15 * countPresent upgrade_technical_indicators tl +
    20 * countPresent upgrade_functional_indicators tl +
    10 * countPresent upgrade_design_indicators tl +
    upgradeAgeScore tl +
    (if (splitWs text.data).length < 500 then 30 else 0) +
    (if ¬ soup.hasFormOrButton ∨ ¬ containsSub "contact".data tl then 25 else 0) +
    (match response with
     | some r => if "https".data.isPrefixOf r.url.data then 0 else 20
     | none => 20) +
    (if ¬ soup.hasViewportMeta then 25 else 0) +
    (if soup.frameElems > 0 then 30 else 0) +
    (if soup.tables > 5 ∧ soup.layoutTables > 3 then 20 else 0)
  let modern : Nat :=
    15 * countPresent modern_technical_indicators tl +
    (match response with
     | some r => if "https".data.isPrefixOf r.url.data then 10 else 0
     | none => 0)
  let final : ℤ := max 0 ((upgrade : ℤ) - modern)
  ⟨final > 40, final, min 95 final⟩

/-! ## Company-size classification (`classify_company_size`,
lines 2414-2610, with `analyze_detailed_website_metrics` 3316-3380,
`analyze_social_presence` 2655-2686, `detect_employee_count` 2688-2733,
`analyze_locations` 2735-2782 and the size lexicons of lines 146-275). -/

def large_company_indicators : List (String × List String) :=
  [("listing_platform_keywords",
    ["thousands of listings", "millions of properties", "search properties",
     "browse listings", "property listings", "rental listings", "accommodation listings",
     "booking platform", "reservation platform", "marketplace", "directory",
     "find properties", "compare properties", "property search engine",
     "listing database", "property database", "inventory of", "catalog of"]),
   ("headquarters_indicators",
    ["headquarters", "corporate headquarters", "global headquarters", "hq",
     "head office", "corporate office", "main office", "principal office",
     "executive offices", "corporate campus", "world headquarters"]),
   ("fortune_keywords",
    ["fortune 500", "fortune 1000", "nasdaq", "nyse", "stock exchange",
     "publicly traded", "shareholders", "investor relations", "sec filings",
     "annual report", "quarterly earnings", "market cap", "ticker symbol",
     "s&p 500", "dow jones", "public company", "publicly held"]),
   ("scale_indicators",
    ["global", "worldwide", "international", "multinational", "enterprise",
     "corporation", "corporate", "offices worldwide", "global presence",
     "international offices", "regional offices", "subsidiaries", "divisions",
     "business units", "operating companies", "franchise locations",
     "nationwide", "countrywide", "multi-state", "multi-national"]),
   ("size_keywords",
    ["thousands of employees", "million employees", "billion", "millions of customers",
     "fortune", "largest", "leading provider", "market leader", "industry leader",
     "global leader", "worldwide leader", "established 18", "established 19",
     "since 18", "since 19", "founded 18", "founded 19", "over 100 years",
     "billions in revenue", "millions in revenue", "market capitalization"]),
   ("corporate_structure",
    ["chief executive officer", "chief financial officer", "chief technology officer",
     "board of directors", "executive team", "leadership team", "senior management",
     "c-suite", "executive committee", "advisory board", "board members",
     "vice president", "senior vice president", "executive vice president",
     "managing director", "general manager", "regional manager"]),
   ("compliance_indicators",
    ["privacy policy", "terms of service", "cookie policy", "gdpr", "ccpa",
     "compliance", "regulatory", "sox compliance", "iso certified",
     "quality management", "certifications", "accreditation", "legal disclaimer",
     "terms and conditions", "user agreement", "service agreement"]),
   ("enterprise_services",
    ["enterprise solutions", "b2b", "business solutions", "enterprise grade",
     "scalable solutions", "white paper", "case studies", "implementation",
     "professional services", "consulting", "support portal", "api documentation",
     "enterprise clients", "corporate clients", "institutional clients"]),
   ("big_business_indicators",
    ["press releases", "media center", "news room", "newsroom", "press center",
     "media kit", "brand assets", "corporate communications", "public relations",
     "investor center", "corporate governance", "sustainability report",
     "corporate responsibility", "annual reports", "quarterly reports"])]

def medium_company_indicators : List (String × List String) :=
  [("regional_presence",
    ["regional", "multi-location", "multiple offices", "branch offices",
     "locations", "established", "growing company", "expanding",
     "several locations", "multiple branches", "regional service",
     "serving multiple cities", "multiple markets"]),
   ("professional_services",
    ["professional", "certified", "licensed", "accredited", "experienced team",
     "expert", "specialists", "consultants", "advisors", "professional staff",
     "qualified team", "industry experts", "certified professionals"]),
   ("business_maturity",
    ["years of experience", "established business", "trusted partner",
     "proven track record", "industry expertise", "comprehensive services",
     "experienced company", "established reputation", "trusted provider"]),
   ("medium_scale_indicators",
    ["regional leader", "local market leader", "growing business",
     "expanding operations", "multiple departments", "dedicated team",
     "specialized services", "full-service", "comprehensive solutions"])]

def small_company_indicators : List (String × List String) :=
  [("local_business",
    ["local", "family owned", "family business", "locally owned",
     "community", "neighborhood", "hometown", "serving [city]",
     "local service", "neighborhood business", "community focused",
     "locally operated", "hometown favorite", "local expertise"]),
   ("personal_touch",
    ["personal service", "personalized", "one-on-one", "direct contact",
     "owner operated", "small business", "boutique", "specialized",
     "personal attention", "individual service", "custom service",
     "tailored solutions", "hands-on approach", "direct owner involvement"]),
   ("simple_structure",
    ["contact us", "call us", "email us", "get in touch", "reach out",
     "call today", "contact owner", "speak directly", "personal consultation"]),
   ("authentic_small_business",
    ["family tradition", "generations", "local family", "small team",
     "intimate setting", "cozy", "welcoming", "friendly staff",
     "know your name", "personal relationships", "community member",
     "local knowledge", "neighborhood expert", "personal touch"]),
   ("single_location_indicators",
    ["our location", "visit us at", "stop by", "come see us",
     "our shop", "our store", "our office", "single location",
     "one location", "locally based", "conveniently located"])]

def enterprise_tech_keywords : List String :=
  ["salesforce", "oracle", "sap", "microsoft dynamics", "workday",
   "servicenow", "tableau", "adobe experience", "marketo", "hubspot enterprise"]

def enterprise_hosting_keywords : List String :=
  ["akamai", "cloudflare enterprise", "aws enterprise", "azure enterprise",
   "google cloud enterprise", "cdn", "load balancer", "redundancy"]

def small_business_tech_keywords : List String :=
  ["wix", "squarespace", "wordpress.com", "weebly", "shopify basic",
   "godaddy website builder", "site123"]

def size_red_flags : List String :=
  ["api integration", "enterprise api", "developer portal", "white label",
   "franchise opportunities", "investor relations", "press releases",
   "corporate partnerships", "global expansion", "ipo", "acquisition"]

/-- Category weights of the three scoring loops (lines 2425-2468). -/
def largeWeight (c : String) : Nat :=
  if c = "listing_platform_keywords" then 15
  else if c = "headquarters_indicators" then 12
  else if c = "fortune_keywords" then 10
  else if c = "big_business_indicators" then 8
  else if c = "scale_indicators" then 6
  else if c = "corporate_structure" then 4
  else 3

def mediumWeight (c : String) : Nat :=
  if c = "medium_scale_indicators" then 4 else 3

def smallWeight (c : String) : Nat :=
  if c = "authentic_small_business" then 8
  else if c = "local_business" then 6
  else if c = "personal_touch" then 6
  else if c = "single_location_indicators" then 5
  else 4

def categoryScore (text : Chars) (cats : List (String × List String))
    (w : String → Nat) : Nat :=
  cats.foldl (fun acc cat => acc + sumCounts text cat.2 (w cat.1)) 0

structure Metrics where
  total_links : Nat
  internal_links : Nat
  external_links : ℤ
  images : Nat
  forms : Nat
  scripts : Nat
  stylesheets : Nat
  navigation_items : Nat
  divs : Nat
  sections : Nat
  articles : Nat
  word_count : Nat
  character_count : Nat
  videos : Nat
  interactive_elements : Nat
  complexity_score : Nat
deriving Repr, DecidableEq

def analyze_detailed_website_metrics (soup : Soup) : Metrics :=
  let wc := (splitWs soup.soupText.data).length
  let complexity : Nat :=
    (if wc > 5000 then 15 else if wc > 2000 then 10 else if wc > 500 then 5 else 0) +
    (if soup.totalLinks > 100 then 10 else if soup.totalLinks > 50 then 5 else 0) +
    (if soup.navItems > 50 then 8 else if soup.navItems > 20 then 4 else 0) +
    (if soup.forms > 5 then 6 else 0) +
    (if soup.scripts > 20 then 8 else 0) +
    (if soup.images > 50 then 6 else 0)
  ⟨soup.totalLinks, soup.internalLinks,
   (soup.totalLinks : ℤ) - soup.internalLinks,
   soup.images, soup.forms, soup.scripts, soup.stylesheets,
   soup.navItems, soup.divs, soup.sections, soup.articles,
   wc, soup.soupText.data.length, soup.videos, soup.interactiveElems,
   complexity⟩

def social_platforms : List String :=
  ["facebook", "twitter", "linkedin", "instagram", "youtube",
   "tiktok", "pinterest", "snapchat", "telegram", "whatsapp"]

/-- `analyze_social_presence` (lines 2655-2686): 2 per distinct platform
appearing in some link href, 1 per sharing word in the text. -/
def analyze_social_presence (soup : Soup) (page_text : Chars) : Nat :=
  2 * (social_platforms.filter (fun p =>
      soup.hrefs.any (fun h => containsSub p.data (lowerChars h.data)))).length +
  countPresent ["share", "tweet", "like", "follow"] page_text

/-- `(\d+),?(\d+)?[+]?\s*SUFFIX`, optionally after `PRE\s+`: the matched
number is the concatenation of the two digit groups. -/
def tryEmployeeCore (allowPlus : Bool) (suffix : Chars) (s : Chars) :
    Option (Nat × Chars) := do
  let (d1, r1) ← takeDigits s
  let (d2, r2) :=
    match r1 with
    | ',' :: rr =>
        (match takeDigits rr with
         | some (ds, r) => (ds, r)
         | none => (([] : Chars), rr))
    | _ => ([], r1)
  let r3 := if allowPlus then optChar '+' r2 else r2
  let r4 ← litAt suffix (skipSpaces0 r3)
  pure (digitsVal (d1 ++ d2), r4)

def tryEmployeePre (pre : Chars) (suffix : Chars) (s : Chars) :
    Option (Nat × Chars) := do
  let r0 ← litAt pre s
  let r1 ← skipSpaces1 r0
  tryEmployeeCore false suffix r1

structure EmployeeInfo where
  size : Option String
  count : Option Nat
  etype : Option String
deriving Repr, DecidableEq

/-- Tier classification of lines 2711-2718: the loop returns on the first
match whose number is at least 1. -/
def employeeTier (etype : String) (ms : List Nat) : Option EmployeeInfo :=
  match ms.find? (fun n => decide (1 ≤ n)) with
  | some n =>
      some ⟨some (if n ≥ 1000 then "large" else if n ≥ 50 then "medium" else "small"),
            some n, some etype⟩
  | none => none

def detect_employee_count (text : Chars) : EmployeeInfo :=
  match employeeTier "count" (findAll (tryEmployeeCore true "employees".data) text) with
  | some i => i
  | none =>
  match employeeTier "over" (findAll (tryEmployeePre "over".data "employees".data) text) with
  | some i => i
  | none =>
  match employeeTier "over" (findAll (tryEmployeePre "more than".data "employees".data) text) with
  | some i => i
  | none =>
  match employeeTier "count" (findAll (tryEmployeeCore true "team members".data) text) with
  | some i => i
  | none =>
  match employeeTier "count" (findAll (tryEmployeeCore true "staff".data) text) with
  | some i => i
  | none =>
  if containsAny ["thousands of employees", "million employees"] text then
    ⟨some "large", none, some "estimate"⟩
  else if containsAny ["hundreds of employees", "large team"] text then
    ⟨some "medium", none, some "estimate"⟩
  else if containsAny ["small team", "boutique", "family business"] text then
    ⟨some "small", none, some "estimate"⟩
  else ⟨none, none, none⟩

/-- `(\d+)\s*WORD` with an optional plural `s`. -/
def tryNumThenLit (word : Chars) (optS : Bool) (s : Chars) : Option (Nat × Chars) := do
  let (ds, r1) ← takeDigits s
  let r2 ← litAt word (skipSpaces0 r1)
  pure (digitsVal ds, if optS then optChar 's' r2 else r2)

def locationTier (n : Nat) : Nat :=
  if n ≥ 100 then 8 else if n ≥ 50 then 6 else if n ≥ 10 then 4
  else if n ≥ 5 then 2 else if n ≥ 2 then 1 else 0

/-- `analyze_locations` (lines 2735-2782). -/
def analyze_locations (text : Chars) : Nat :=
  ((findAll (tryNumThenLit "office".data true) text ++
    findAll (tryNumThenLit "location".data true) text ++
    findAll (tryNumThenLit "branche".data true) text ++
    findAll (tryNumThenLit "store".data true) text ++
    findAll (tryNumThenLit "facilities".data false) text ++
    findAll (tryNumThenLit "countries".data false) text ++
    findAll (tryNumThenLit "states".data false) text).foldl
      (fun acc n => acc + locationTier n) 0) +
  3 * countPresent
    ["worldwide", "global presence", "international offices",
     "offices around the world", "global locations"] text

structure CompanySizeResult where
  size : String
  confidence : ℤ
deriving Repr, DecidableEq

open PyFloat in
/-- The final classification of lines 2552-2584: the percentage shares, the
small-business bias branch, then the two boost/override rules, applied in
order to the (size, confidence) pair. -/
def sizeDecision (large medium small total : Nat) : String × PyFloat :=
  let largePct := ((ofNat large).div (ofNat total)).mul (ofInt 100)
  let mediumPct := ((ofNat medium).div (ofNat total)).mul (ofInt 100)
  let smallPct := ((ofNat small).div (ofNat total)).mul (ofInt 100)
  let sc0 : String × PyFloat :=
    if small > large ∧ small > medium then
      ("small_business", fmin (ofInt 95) (smallPct.add (ofInt 10)))
    else if large > medium ∧ large > small then
      ("large_enterprise", fmin (ofInt 95) largePct)
    else if medium > 0 then
      ("medium_business", fmin (ofInt 90) mediumPct)
    else ("unknown", ofInt 0)
  let sc1 : String × PyFloat :=
    if small ≥ 15 ∧ large < 10 then
      ("small_business", fmin (ofInt 95) (sc0.2.add (ofInt 15)))
    else sc0
  if large ≥ 25 then
    ("large_enterprise", fmin (ofInt 95) (sc1.2.add (ofInt 10)))
  else sc1

/-- Lines 2550-2584: when all three raw scores are zero the result is
`unknown` with confidence 0; otherwise the staged decision applies and the
float confidence is rounded to an int. -/
def sizeFinal (large medium small : Nat) : CompanySizeResult :=
  let total := large + medium + small
  if total = 0 then ⟨"unknown", 0⟩
  else
    ⟨(sizeDecision large medium small total).1,
     PyFloat.roundHE (sizeDecision large medium small total).2⟩

open PyFloat in
/-- `classify_company_size` (lines 2414-2610).  The `details` dict is the
scores themselves and is not separately modelled. -/
def classify_company_size (soup : Soup) (page_text title description : String) :
    CompanySizeResult :=
  let all_text := lowerChars (page_text ++ " " ++ title ++ " " ++ description).data
  let metrics := analyze_detailed_website_metrics soup
  let complexity := metrics.complexity_score
  let wc := metrics.word_count
  let nav := metrics.navigation_items
  let social := analyze_social_presence soup all_text
  let emp := detect_employee_count all_text
  let loc := analyze_locations all_text
  let redFlags := countPresent size_red_flags all_text
  let large : Nat :=
    categoryScore all_text large_company_indicators largeWeight +
    8 * countPresent enterprise_tech_keywords all_text +
    5 * countPresent enterprise_hosting_keywords all_text +
    (if complexity > 40 then 15 else if complexity > 25 then 10 else 0) +
    (if wc > 5000 then 10 else 0) +
    (if nav > 50 then 8 else 0) +
    (if social > 15 then 5 else 0) +
    (if emp.size = some "large" then 20 else 0) +
    (if loc > 10 then loc else 0) +
    redFlags * 5
  let medium : Nat :=
    categoryScore all_text medium_company_indicators mediumWeight +
    (if ¬ complexity > 40 ∧ ¬ complexity > 25 ∧ complexity > 15 then 5 else 0) +
    (if ¬ wc > 5000 ∧ wc > 2000 then 5 else 0) +
    (if ¬ nav > 50 ∧ nav > 20 then 4 else 0) +
    (if ¬ social > 15 ∧ social > 8 then 3 else 0) +
    (if emp.size = some "medium" then 10 else 0) +
    (if ¬ loc > 10 ∧ loc > 5 then loc else 0)
  let small : Nat :=
    categoryScore all_text small_company_indicators smallWeight +
    6 * countPresent small_business_tech_keywords all_text +
    (if ¬ complexity > 40 ∧ ¬ complexity > 25 ∧ ¬ complexity > 15 then 8 else 0) +
    (if ¬ wc > 5000 ∧ ¬ wc > 2000 ∧ wc < 500 then 5 else 0) +
    (if ¬ nav > 50 ∧ ¬ nav > 20 ∧ nav < 10 then 4 else 0) +
    (if ¬ social > 15 ∧ ¬ social > 8 ∧ social > 3 then 2 else 0) +
    (if emp.size = some "small" then 8 else 0) +
    (if ¬ loc > 10 ∧ ¬ loc > 5 ∧ loc = 0 then 3 else 0)
  sizeFinal large medium small

/-! ## Bounds on the produced confidence values -/

namespace PyFloat

theorem toRat_zero : (ofInt 0).toRat = 0 := by rw [toRat_ofInt]; norm_num

theorem div_toRat_nonneg {a : PyFloat} (b : PyFloat) (ha : 0 ≤ a.toRat) :
    0 ≤ (a.div b).toRat := by
  unfold div
  split_ifs with h
  · rw [toRat_zero]
  · rw [toRat_nonneg_iff] at ha ⊢
    push_neg at h
    exact mul_nonneg ha (le_of_lt b.pos)

theorem fmin_nonneg {a b : PyFloat} (ha : 0 ≤ a.toRat) (hb : 0 ≤ b.toRat) :
    0 ≤ (fmin a b).toRat := by
  unfold fmin
  split_ifs <;> assumption

theorem fmin_conf_bounds {x : PyFloat} {k : ℤ} (hk0 : 0 ≤ k) (hk : k ≤ 95)
    (hx : 0 ≤ x.toRat) :
    0 ≤ (fmin (ofInt k) x).toRat ∧ (fmin (ofInt k) x).toRat ≤ 95 := by
  constructor
  · exact fmin_nonneg (by rw [toRat_ofInt]; exact_mod_cast hk0) hx
  · refine (fmin_le_left _ _).trans ?_
    rw [toRat_ofInt]
    exact_mod_cast hk

theorem ofNat_toRat_nonneg (n : Nat) : 0 ≤ (ofNat n).toRat := by
  rw [toRat_ofNat]
  positivity

theorem natTenths_toRat_nonneg (x : Nat) (k : ℤ) (hk : 0 ≤ k) :
    0 ≤ ((ofNat x).mul (tenths k)).toRat := by
  rw [toRat_mul, toRat_ofNat, toRat_tenths]
  have h1 : (0:ℚ) ≤ (x : ℚ) := by positivity
  have h2 : (0:ℚ) ≤ (k : ℚ) / 10 :=
    div_nonneg (by exact_mod_cast hk) (by norm_num)
  exact mul_nonneg h1 h2

end PyFloat

theorem foldl_pick_mem {α : Type} (f : α → α → Bool) :
    ∀ (l : List α) (init : α),
      l.foldl (fun best q => if f best q then q else best) init = init ∨
      l.foldl (fun best q => if f best q then q else best) init ∈ l
  | [], _ => Or.inl rfl
  | q :: rest, init => by
      simp only [List.foldl_cons]
      rcases foldl_pick_mem f rest (if f init q then q else init) with h | h
      · rw [h]
        split
        · exact Or.inr (List.mem_cons_self _ _)
        · exact Or.inl rfl
      · exact Or.inr (List.mem_cons_of_mem _ h)

theorem argmaxFirst_mem (l : List (String × PyFloat)) (dflt : String × PyFloat)
    (h : l ≠ []) : argmaxFirst l dflt ∈ l := by
  match l with
  | p :: rest =>
    have he : argmaxFirst (p :: rest) dflt =
        rest.foldl (fun best q => if PyFloat.ltB best.2 q.2 then q else best) p := rfl
    rw [he]
    rcases foldl_pick_mem (fun best q => PyFloat.ltB best.2 q.2) rest p with h1 | h1
    · rw [h1]
      exact List.mem_cons_self _ _
    · exact List.mem_cons_of_mem _ h1

theorem classify_industry_conf_le (page_text title description : String) :
    (classify_industry page_text title description).confidence ≤ 95 := by
  simp only [classify_industry]
  split
  · exact Nat.zero_le 95
  · exact Nat.min_le_left _ _

theorem classify_vr_property_type_conf_le (text title description : String) :
    (classify_vr_property_type text title description).confidence ≤ 95 := by
  simp only [classify_vr_property_type]
  split
  · exact Nat.zero_le 95
  · exact Nat.min_le_left _ _

theorem detect_geographic_scope_conf_le (text : String) :
    (detect_geographic_scope text).confidence ≤ 95 := by
  simp only [detect_geographic_scope]
  split
  · norm_num
  · exact Nat.min_le_left _ _

theorem detect_property_count_conf_le (text : String) :
    (detect_property_count text).confidence ≤ 95 := by
  simp only [detect_property_count]
  repeat' split <;> norm_num

theorem calculate_decision_maker_conf_bounds (soup : Soup) (text : String)
    (bi : BusinessInfo) :
    0 ≤ (calculate_decision_maker_score soup text bi).confidence ∧
    (calculate_decision_maker_score soup text bi).confidence ≤ 95 := by
  unfold calculate_decision_maker_score
  dsimp only
  constructor
  · have h := abs_nonneg (20 * (decisionMakerPatternHits (lowerChars text.data) : ℤ) +
      10 * (countPresent dm_high_keywords (lowerChars text.data) : ℤ) +
      25 * ((bi.emails.filter (fun e =>
        e ≠ "" ∧ ¬ dm_generic_email_prefixes.any
          (fun p => containsSub p.data (lowerChars e.data)))).length : ℤ) -
      15 * (countPresent dm_negative_keywords (lowerChars text.data) : ℤ) -
      20 * (countPresent dm_low_keywords (lowerChars text.data) : ℤ) +
      (if containsAny ["cell", "mobile", "direct", "personal"] (lowerChars text.data) then
        15 * (bi.phones.length : ℤ) else 0) +
      (if bi.word_count < 1000 then (10:ℤ) else 0))
    omega
  · exact min_le_left _ _

theorem detect_website_upgrade_conf_bounds (soup : Soup) (text : String)
    (response : Option Resp) :
    0 ≤ (detect_website_upgrade_needs soup text response).confidence ∧
    (detect_website_upgrade_needs soup text response).confidence ≤ 95 := by
  unfold detect_website_upgrade_needs
  dsimp only
  omega

open PyFloat in
theorem listingWeightedScore_nonneg (up ci ti ni gc mf : Nat) :
    0 ≤ (listingWeightedScore up ci ti ni gc mf).toRat := by
  unfold listingWeightedScore
  rw [toRat_add, toRat_add, toRat_add, toRat_add, toRat_add]
  have h1 := natTenths_toRat_nonneg up 20 (by norm_num)
  have h2 := natTenths_toRat_nonneg ci 15 (by norm_num)
  have h3 := natTenths_toRat_nonneg ti 12 (by norm_num)
  have h4 := natTenths_toRat_nonneg ni 13 (by norm_num)
  have h5 := natTenths_toRat_nonneg gc 14 (by norm_num)
  have h6 := natTenths_toRat_nonneg mf 16 (by norm_num)
  linarith

open PyFloat in
theorem listingDecision_bounds (up ci ti ni gc mf total : Nat) {ws : PyFloat}
    (hws : 0 ≤ ws.toRat) :
    0 ≤ (listingDecision up ci ti ni gc mf total ws).confidence ∧
    (listingDecision up ci ti ni gc mf total ws).confidence ≤ 95 ∧
    (listingDecision up ci ti ni gc mf total ws).weighted_score = ws := by
  unfold listingDecision
  split_ifs with h1 h2 h3
  · refine ⟨?_, ?_, rfl⟩
    · exact roundHE_nonneg_val (fmin_nonneg (by rw [toRat_ofInt]; norm_num)
        (by rw [toRat_mul, toRat_ofInt]; exact mul_nonneg hws (by norm_num)))
    · exact roundHE_le_val ((fmin_le_left _ _).trans_eq (toRat_ofInt 95))
  · refine ⟨?_, ?_, rfl⟩
    · exact roundHE_nonneg_val (fmin_nonneg (by rw [toRat_ofInt]; norm_num)
        (by rw [toRat_mul, toRat_tenths]; exact mul_nonneg hws (by norm_num)))
    · have h85 := roundHE_le_val ((fmin_le_left (ofInt 85)
        (ws.mul (tenths 25))).trans_eq (toRat_ofInt 85))
      exact le_trans h85 (by norm_num)
  · exact ⟨by norm_num, by norm_num, rfl⟩
  · exact ⟨le_refl 0, by norm_num, rfl⟩

open PyFloat in
theorem detect_third_party_conf_bounds (soup : Soup)
    (page_text title description final_url : String) :
    0 ≤ (detect_third_party_listing soup page_text title description
        final_url).confidence ∧
    (detect_third_party_listing soup page_text title description
        final_url).confidence ≤ 95 ∧
    0 ≤ (detect_third_party_listing soup page_text title description
        final_url).weighted_score.toRat := by
  simp only [detect_third_party_listing]
  refine ⟨(listingDecision_bounds _ _ _ _ _ _ _
      (listingWeightedScore_nonneg _ _ _ _ _ _)).1,
    (listingDecision_bounds _ _ _ _ _ _ _
      (listingWeightedScore_nonneg _ _ _ _ _ _)).2.1, ?_⟩
  rw [(listingDecision_bounds _ _ _ _ _ _ _
      (listingWeightedScore_nonneg _ _ _ _ _ _)).2.2]
  exact listingWeightedScore_nonneg _ _ _ _ _ _

open PyFloat in
theorem vr_category_scores_nonneg (all_text : Chars) (ld : ListingDetection)
    (hws : 0 ≤ ld.weighted_score.toRat) :
    ∀ p ∈ vr_category_scores all_text ld, 0 ≤ p.2.toRat := by
  intro p hp
  simp only [vr_category_scores, List.mem_cons, List.not_mem_nil, or_false] at hp
  rcases hp with rfl | rfl | rfl | rfl | rfl | rfl
  · exact ofNat_toRat_nonneg _
  · exact ofNat_toRat_nonneg _
  · exact ofNat_toRat_nonneg _
  · exact ofNat_toRat_nonneg _
  · dsimp only
    rw [toRat_ofInt]
    norm_cast
    split_ifs
    · exact le_max_left 0 _
    · positivity
  · dsimp only
    split
    · exact hws
    · rw [toRat_zero]

theorem vr_category_scores_ne_nil (all_text : Chars) (ld : ListingDetection) :
    vr_category_scores all_text ld ≠ [] := by
  simp only [vr_category_scores]
  exact List.cons_ne_nil _ _

open PyFloat in
theorem vr_final_confidence_bounds (scores : List (String × PyFloat))
    (h : ∀ p ∈ scores, 0 ≤ p.2.toRat) (hne : scores ≠ []) :
    0 ≤ (vr_final_confidence scores).toRat ∧
    (vr_final_confidence scores).toRat ≤ 95 := by
  unfold vr_final_confidence
  dsimp only
  split
  · have htop : 0 ≤ (argmaxFirst scores ("marketplace_platform", ofInt 0)).2.toRat :=
      h _ (argmaxFirst_mem scores _ hne)
    exact fmin_conf_bounds (by norm_num) (by norm_num) (by
      rw [toRat_mul, toRat_ofInt]
      exact mul_nonneg (div_toRat_nonneg _ htop) (by norm_num))
  · rw [toRat_zero]
    exact ⟨le_refl 0, by norm_num⟩

open PyFloat in
theorem classify_vr_model_conf_bounds (soup : Soup)
    (page_text title description final_url : String) :
    0 ≤ (classify_vacation_rental_business_model soup page_text title description
        final_url).confidence.toRat ∧
    (classify_vacation_rental_business_model soup page_text title description
        final_url).confidence.toRat ≤ 95 := by
  obtain ⟨hld0, hld95, hldws⟩ :=
    detect_third_party_conf_bounds soup page_text title description final_url
  have hconf := vr_final_confidence_bounds
    (vr_category_scores
      (lowerChars (page_text ++ " " ++ title ++ " " ++ description ++ " " ++
        final_url).data)
      (detect_third_party_listing soup page_text title description final_url))
    (vr_category_scores_nonneg _ _ hldws)
    (vr_category_scores_ne_nil _ _)
  simp only [classify_vacation_rental_business_model]
  by_cases h1 : (detect_third_party_listing soup page_text title description
        final_url).is_third_party_listing = true ∧
      (detect_third_party_listing soup page_text title description final_url).confidence > 70
  · rw [if_pos h1]
    dsimp only
    rw [toRat_ofInt]
    constructor
    · exact_mod_cast hld0
    · exact_mod_cast hld95
  · rw [if_neg h1]
    by_cases h2 : (marketplace_url_indicators.any
        (fun p => containsSub p.data (lowerChars final_url.data))) = true
    · rw [if_pos h2]
      dsimp only
      rw [toRat_ofInt]
      norm_num
    · rw [if_neg h2]
      by_cases h3 : ((vr_category_scores
            (lowerChars (page_text ++ " " ++ title ++ " " ++ description ++ " " ++
              final_url).data)
            (detect_third_party_listing soup page_text title description final_url)).all
          (fun p => p.2.num = 0)) = true
      · rw [if_pos h3]
        dsimp only
        rw [toRat_zero]
        exact ⟨le_refl 0, by norm_num⟩
      · rw [if_neg h3]
        by_cases h4 : (argmaxFirst (vr_category_scores
              (lowerChars (page_text ++ " " ++ title ++ " " ++ description ++ " " ++
                final_url).data)
              (detect_third_party_listing soup page_text title description final_url))
              ("marketplace_platform", PyFloat.ofInt 0)).1 = "third_party_listing" ∨
            (detect_third_party_listing soup page_text title description
              final_url).confidence > 60
        · rw [if_pos h4]
          dsimp only
          constructor
          · exact le_trans hconf.1 (le_fmax_left _ _)
          · refine fmax_le hconf.2 ?_
            rw [toRat_ofInt]
            exact_mod_cast hld95
        · rw [if_neg h4]
          dsimp only
          rw [toRat_ofInt]
          constructor
          · exact_mod_cast roundHE_nonneg_val hconf.1
          · exact_mod_cast roundHE_le_val (by exact_mod_cast hconf.2)

open PyFloat in
theorem langLexicalPair_nonneg (base : Nat) (scores : List (String × Nat))
    (total2 : Nat) : 0 ≤ (langLexicalPair base scores total2).2.toRat := by
  unfold langLexicalPair
  split
  · exact ofNat_toRat_nonneg _
  · dsimp only
    rw [toRat_add]
    refine add_nonneg (ofNat_toRat_nonneg _) ?_
    rw [toRat_mul, toRat_ofInt]
    exact mul_nonneg (div_toRat_nonneg _ (ofNat_toRat_nonneg _)) (by norm_num)

open PyFloat in
theorem detect_website_language_conf_bounds (soup : Soup) (page_text : String) :
    0 ≤ (detect_website_language soup page_text).confidence.toRat ∧
    (detect_website_language soup page_text).confidence.toRat ≤ 95 := by
  simp only [detect_website_language]
  refine fmin_conf_bounds (by norm_num) (by norm_num) ?_
  split
  · split
    · dsimp only
      refine fmin_nonneg (by rw [toRat_ofInt]; norm_num) ?_
      rw [toRat_add, toRat_ofInt]
      exact add_nonneg (langLexicalPair_nonneg _ _ _) (by norm_num)
    · exact langLexicalPair_nonneg _ _ _
  · exact langLexicalPair_nonneg _ _ _

open PyFloat in
theorem boost_bounds (p : String × PyFloat) (h0 : 0 ≤ p.2.toRat)
    (h95 : p.2.toRat ≤ 95) (cond : Prop) [Decidable cond] (name : String)
    (c : ℤ) (hc : 0 ≤ c) :
    0 ≤ (if cond then (name, fmin (ofInt 95) (p.2.add (ofInt c))) else p).2.toRat ∧
    (if cond then (name, fmin (ofInt 95) (p.2.add (ofInt c))) else p).2.toRat ≤ 95 := by
  split
  · dsimp only
    refine fmin_conf_bounds (by norm_num) (by norm_num) ?_
    rw [toRat_add, toRat_ofInt]
    exact add_nonneg h0 (by exact_mod_cast hc)
  · exact ⟨h0, h95⟩

open PyFloat in
theorem sizeDecision_bounds (large medium small total : Nat) :
    0 ≤ (sizeDecision large medium small total).2.toRat ∧
    (sizeDecision large medium small total).2.toRat ≤ 95 := by
  have hpct : ∀ x : Nat,
      0 ≤ (((ofNat x).div (ofNat total)).mul (ofInt 100)).toRat := by
    intro x
    rw [toRat_mul, toRat_ofInt]
    exact mul_nonneg (div_toRat_nonneg _ (ofNat_toRat_nonneg _)) (by norm_num)
  simp only [sizeDecision]
  have hsc0 : 0 ≤ ((if small > large ∧ small > medium then
        ("small_business", fmin (ofInt 95)
          ((((ofNat small).div (ofNat total)).mul (ofInt 100)).add (ofInt 10)))
      else if large > medium ∧ large > small then
        ("large_enterprise",
          fmin (ofInt 95) (((ofNat large).div (ofNat total)).mul (ofInt 100)))
      else if medium > 0 then
        ("medium_business",
          fmin (ofInt 90) (((ofNat medium).div (ofNat total)).mul (ofInt 100)))
      else ("unknown", ofInt 0) : String × PyFloat)).2.toRat ∧
      ((if small > large ∧ small > medium then
        ("small_business", fmin (ofInt 95)
          ((((ofNat small).div (ofNat total)).mul (ofInt 100)).add (ofInt 10)))
      else if large > medium ∧ large > small then
        ("large_enterprise",
          fmin (ofInt 95) (((ofNat large).div (ofNat total)).mul (ofInt 100)))
      else if medium > 0 then
        ("medium_business",
          fmin (ofInt 90) (((ofNat medium).div (ofNat total)).mul (ofInt 100)))
      else ("unknown", ofInt 0) : String × PyFloat)).2.toRat ≤ 95 := by
    split_ifs with h1 h2 h3
    · exact fmin_conf_bounds (by norm_num) (by norm_num)
        (by rw [toRat_add, toRat_ofInt]; exact add_nonneg (hpct small) (by norm_num))
    · exact fmin_conf_bounds (by norm_num) (by norm_num) (hpct large)
    · exact fmin_conf_bounds (by norm_num) (by norm_num) (hpct medium)
    · rw [toRat_zero]
      exact ⟨le_refl 0, by norm_num⟩
  have hsc1 := boost_bounds _ hsc0.1 hsc0.2 (small ≥ 15 ∧ large < 10)
    "small_business" 15 (by norm_num)
  exact boost_bounds _ hsc1.1 hsc1.2 (large ≥ 25) "large_enterprise" 10 (by norm_num)

open PyFloat in
theorem sizeFinal_bounds (large medium small : Nat) :
    0 ≤ (sizeFinal large medium small).confidence ∧
    (sizeFinal large medium small).confidence ≤ 95 := by
  unfold sizeFinal
  dsimp only
  split
  · exact ⟨le_refl 0, by norm_num⟩
  · refine ⟨roundHE_nonneg_val (sizeDecision_bounds _ _ _ _).1,
      roundHE_le_val ?_⟩
    exact_mod_cast (sizeDecision_bounds _ _ _ _).2

theorem classify_company_size_conf_bounds (soup : Soup)
    (page_text title description : String) :
    0 ≤ (classify_company_size soup page_text title description).confidence ∧
    (classify_company_size soup page_text title description).confidence ≤ 95 := by
  simp only [classify_company_size]
  exact sizeFinal_bounds _ _ _

theorem detect_hacked_conf_le (soup : Soup) (page_text : String)
    (response : Option Resp) :
    (detect_hacked_website soup page_text response).confidence ≤ 95 := by
  rw [detect_hacked_website_always_default]
  exact Nat.zero_le 95

/-- **C5**: for every input, every confidence value produced by every
sub-classifier lies in the closed interval [0, 95]: industry, company size,
vertical business model, third-party listing, hacked detection, language,
property count, decision-maker accessibility, upgrade need, property type,
and geographic scope.  (`Nat`-valued confidences are trivially ≥ 0; the
`ℤ`- and float-valued ones are proved nonnegative, and every one is ≤ 95.) -/
theorem C5_all_confidences_in_range :
    (∀ pt t d : String, 0 ≤ (classify_industry pt t d).confidence ∧
      (classify_industry pt t d).confidence ≤ 95) ∧
    (∀ (soup : Soup) (pt t d : String),
      0 ≤ (classify_company_size soup pt t d).confidence ∧
      (classify_company_size soup pt t d).confidence ≤ 95) ∧
    (∀ (soup : Soup) (pt t d u : String),
      0 ≤ (classify_vacation_rental_business_model soup pt t d u).confidence.toRat ∧
      (classify_vacation_rental_business_model soup pt t d u).confidence.toRat ≤ 95) ∧
    (∀ (soup : Soup) (pt t d u : String),
      0 ≤ (detect_third_party_listing soup pt t d u).confidence ∧
      (detect_third_party_listing soup pt t d u).confidence ≤ 95) ∧
    (∀ (soup : Soup) (pt : String) (r : Option Resp),
      0 ≤ (detect_hacked_website soup pt r).confidence ∧
      (detect_hacked_website soup pt r).confidence ≤ 95) ∧
    (∀ (soup : Soup) (pt : String),
      0 ≤ (detect_website_language soup pt).confidence.toRat ∧
      (detect_website_language soup pt).confidence.toRat ≤ 95) ∧
    (∀ t : String, 0 ≤ (detect_property_count t).confidence ∧
      (detect_property_count t).confidence ≤ 95) ∧
    (∀ (soup : Soup) (t : String) (bi : BusinessInfo),
      0 ≤ (calculate_decision_maker_score soup t bi).confidence ∧
      (calculate_decision_maker_score soup t bi).confidence ≤ 95) ∧
    (∀ (soup : Soup) (t : String) (r : Option Resp),
      0 ≤ (detect_website_upgrade_needs soup t r).confidence ∧
      (detect_website_upgrade_needs soup t r).confidence ≤ 95) ∧
    (∀ t ti d : String, 0 ≤ (classify_vr_property_type t ti d).confidence ∧
      (classify_vr_property_type t ti d).confidence ≤ 95) ∧
    (∀ t : String, 0 ≤ (detect_geographic_scope t).confidence ∧
      (detect_geographic_scope t).confidence ≤ 95) :=
  ⟨fun pt t d => ⟨Nat.zero_le _, classify_industry_conf_le pt t d⟩,
   fun soup pt t d => classify_company_size_conf_bounds soup pt t d,
   fun soup pt t d u => classify_vr_model_conf_bounds soup pt t d u,
   fun soup pt t d u => ⟨(detect_third_party_conf_bounds soup pt t d u).1,
     (detect_third_party_conf_bounds soup pt t d u).2.1⟩,
   fun soup pt r => ⟨Nat.zero_le _, detect_hacked_conf_le soup pt r⟩,
   fun soup pt => detect_website_language_conf_bounds soup pt,
   fun t => ⟨Nat.zero_le _, detect_property_count_conf_le t⟩,
   fun soup t bi => calculate_decision_maker_conf_bounds soup t bi,
   fun soup t r => detect_website_upgrade_conf_bounds soup t r,
   fun t ti d => ⟨Nat.zero_le _, classify_vr_property_type_conf_le t ti d⟩,
   fun t => ⟨Nat.zero_le _, detect_geographic_scope_conf_le t⟩⟩

end DomainChecker
